import Mathlib

/-!
# The index page generator of clustereye-archive

A shallow embedding of `scripts/generate-index.js`: the script reads the release
manifest `releases.json`, renders one card per agent release and one card per install
script, wraps them in a fixed page skeleton and writes `index.html`.

The manifest is a typed record, the value of `JSON.parse` at line 7; the keys whose
absence the script tests or trips over (`domain`, `badges`, `features`, `options`,
`scripts.stack`, `scripts.agent`) are `Option`s, with `none` standing for a key that is
missing from the JSON document (JavaScript `undefined`). Strings are concatenated
exactly as the template literals of the script concatenate them: one Lean literal per
source line. A run is a function from the machine (`Host`) and the manifest to what the
script leaves behind (`RunResult`).
-/

namespace GenerateIndex

/-! ## Data model (the shape of `releases.json`) -/

/-- One downloadable file of a release. -/
structure Asset where
  name : String
  arch : String
  hasSha256 : Bool
  deriving Repr, DecidableEq

/-- One entry of `agent.releases`. -/
structure Release where
  version : String
  date : String
  latest : Bool
  badges : Option (List String)
  assets : List Asset
  deriving Repr, DecidableEq

/-- One entry of a script descriptor's `options`. -/
structure ScriptOption where
  flag : String
  desc : String
  deriving Repr, DecidableEq

/-- An install script descriptor (`scripts.stack`, `scripts.agent`). -/
structure Script where
  name : String
  description : String
  file : String
  features : Option (List String)
  options : Option (List ScriptOption)
  deriving Repr, DecidableEq

/-- The object `scripts` of the manifest. -/
structure ScriptSet where
  stack : Option Script
  agent : Option Script
  deriving Repr, DecidableEq

/-- The object `agent` of the manifest. -/
structure ReleaseGroup where
  repo : String
  releases : List Release
  deriving Repr, DecidableEq

/-- The parsed manifest, `data` in the script. -/
structure Manifest where
  domain : Option String
  agent : ReleaseGroup
  scripts : ScriptSet
  deriving Repr, DecidableEq

/-! ## The JavaScript the script relies on -/

/-- An exception that ends the run. -/
inductive JsError where
  | typeError (msg : String)
  | ioError
  deriving Repr, DecidableEq

deriving instance DecidableEq for Except

/-- What the script needs from the machine it runs on. -/
structure Host where
  /-- Offset of local time from UTC in minutes, at a UTC instant given in milliseconds
  since the epoch (the time zone of the process). -/
  localOffsetMinutes : Int → Int
  /-- The engine's own parser for date strings that are not a valid `YYYY-MM-DD`:
  the time value in milliseconds, `none` for an invalid date. -/
  fallbackParse : String → Option Int
  /-- Whether `fs.writeFileSync` throws on the output path. -/
  writeFails : Bool

/-- `${x}` in a template literal for a string-valued key that may be missing. -/
def interpolate : Option String → String
  | some s => s
  | none => "undefined"

/-- `xs.join(sep)` of `Array.prototype.join` on an array of strings. -/
def join (sep : String) : List String → String
  | [] => ""
  | [x] => x
  | x :: y :: rest => x ++ sep ++ join sep (y :: rest)

/-- Reading a property of `o`: a `TypeError` when `o` is `undefined`. -/
def readProp {α β : Type} (o : Option α) (key : String) (f : α → β) : Except JsError β :=
  match o with
  | some a => .ok (f a)
  | none => .error (.typeError ("Cannot read properties of undefined (reading \x27" ++ key ++ "\x27)"))

/-- JavaScript truthiness of a string: every string but the empty one. -/
def truthy (s : String) : Bool := s != ""

/-! ### Dates: `new Date(dateStr)` and `toLocaleDateString` -/

/-- The value of a decimal digit. -/
def digitVal (c : Char) : Option Nat :=
  if 48 ≤ c.toNat ∧ c.toNat ≤ 57 then some (c.toNat - 48) else none

/-- Whether `y` is a leap year of the proleptic Gregorian calendar. -/
def isLeapYear (y : Int) : Bool :=
  (y % 4 == 0 && y % 100 != 0) || y % 400 == 0

/-- Number of days of month `m` (1 to 12) in year `y`. -/
def daysInMonth (y : Int) (m : Nat) : Nat :=
  if m = 2 then (if isLeapYear y then 29 else 28)
  else if m = 4 ∨ m = 6 ∨ m = 9 ∨ m = 11 then 30
  else 31

/-- Days from 1970-01-01 to the civil date `y`-`m`-`d`. -/
def daysFromCivil (y : Int) (m d : Nat) : Int :=
  let y1 : Int := if m ≤ 2 then y - 1 else y
  let era : Int := y1 / 400
  let yoe : Int := y1 - era * 400
  let mp : Int := if m > 2 then (m : Int) - 3 else (m : Int) + 9
  let doy : Int := (153 * mp + 2) / 5 + (d : Int) - 1
  let doe : Int := yoe * 365 + yoe / 4 - yoe / 100 + doy
  era * 146097 + doe - 719468

/-- The civil date (year, month, day) that lies `z` days after 1970-01-01. -/
def civilFromDays (z : Int) : Int × Nat × Nat :=
  let z1 : Int := z + 719468
  let era : Int := z1 / 146097
  let doe : Int := z1 - era * 146097
  let yoe : Int := (doe - doe / 1460 + doe / 36524 - doe / 146096) / 365
  let doy : Int := doe - (365 * yoe + yoe / 4 - yoe / 100)
  let mp : Int := (5 * doy + 2) / 153
  let d : Int := doy - (153 * mp + 2) / 5 + 1
  let m : Int := if mp < 10 then mp + 3 else mp - 9
  let y : Int := yoe + era * 400
  (if m ≤ 2 then y + 1 else y, m.toNat, d.toNat)

/-- Milliseconds in a day. -/
def msPerDay : Int := 86400000

/-- The date-only form `YYYY-MM-DD` of the ECMAScript date-time string format:
year, month and day when the string has that shape and names a day that exists. -/
def parseIsoDate (s : String) : Option (Int × Nat × Nat) :=
  match s.data with
  | [y1, y2, y3, y4, '-', m1, m2, '-', d1, d2] =>
    match digitVal y1, digitVal y2, digitVal y3, digitVal y4,
          digitVal m1, digitVal m2, digitVal d1, digitVal d2 with
    | some a, some b, some c, some d, some e, some f, some g, some h =>
      let y : Int := ((a * 1000 + b * 100 + c * 10 + d : Nat) : Int)
      let m : Nat := e * 10 + f
      let day : Nat := g * 10 + h
      if 1 ≤ m ∧ m ≤ 12 ∧ 1 ≤ day ∧ day ≤ daysInMonth y m then some (y, m, day) else none
    | _, _, _, _, _, _, _, _ => none
  | _ => none

/-- `TimeClip`: a time value beyond 8.64e15 milliseconds from the epoch is the invalid
date. -/
def timeClip (t : Int) : Option Int :=
  if t.natAbs ≤ 8640000000000000 then some t else none

/-- The time value of `new Date(dateStr)`: a date-only ISO string is midnight UTC of
that day, any other string is left to the engine; `none` is the invalid date. -/
def newDate (host : Host) (dateStr : String) : Option Int :=
  match parseIsoDate dateStr with
  | some (y, m, d) => timeClip (daysFromCivil y m d * msPerDay)
  | none => (host.fallbackParse dateStr).bind timeClip

/-- English month names of the `en-US` locale. -/
def monthName (m : Nat) : String :=
  match m with
  | 1 => "January" | 2 => "February" | 3 => "March" | 4 => "April"
  | 5 => "May" | 6 => "June" | 7 => "July" | 8 => "August"
  | 9 => "September" | 10 => "October" | 11 => "November" | _ => "December"

/-- Decimal digits of a natural number, most significant first, with `fuel` bounding
the number of digits. -/
def decimalDigits : Nat → Nat → List Char
  | 0, _ => []
  | fuel + 1, n =>
    if n < 10 then [Char.ofNat (48 + n)]
    else decimalDigits fuel (n / 10) ++ [Char.ofNat (48 + n % 10)]

/-- A natural number in decimal. -/
def decimal (n : Nat) : String := String.mk (decimalDigits (n + 1) n)

/-- The year as `year: 'numeric'` prints it: the year of the era. -/
def yearOfEra (y : Int) : Nat := if y ≥ 1 then y.toNat else (1 - y).toNat

/-- `date.toLocaleDateString('en-US', { year: 'numeric', month: 'long', day: 'numeric' })`
in the time zone of the process; the invalid date prints as `Invalid Date`. -/
def toLocaleDateString (host : Host) (date : Option Int) : String :=
  match date with
  | none => "Invalid Date"
  | some t =>
    let localMs : Int := t + host.localOffsetMinutes t * 60000
    let (y, m, d) := civilFromDays (localMs / msPerDay)
    monthName m ++ " " ++ decimal d ++ ", " ++ decimal (yearOfEra y)

/-! ## The script -/

/-- `formatDate(dateStr)`, lines 11-14. -/
def formatDate (host : Host) (dateStr : String) : String :=
  let date := newDate host dateStr
  toLocaleDateString host date

/-- `const baseUrl`, line 9, from `data.domain`. -/
def baseUrl (domain : Option String) : String :=
  "https://" ++ interpolate domain

/-- The list `badges` built at lines 17-25: `push` appends at the end. -/
def badges (release : Release) : List String :=
  let badges : List String := []
  let badges :=
    if release.latest then badges ++ ["<span class=\"release-badge latest\">Latest</span>"]
    else badges
  match release.badges with
  | some labels =>
    labels.foldl
      (fun acc badge => acc ++ ["<span class=\"release-badge arm\">" ++ badge ++ "</span>"]) badges
  | none => badges

/-- `const downloadUrl`, line 28. -/
def downloadUrl (release : Release) (asset : Asset) : String :=
  "downloads/agent/" ++ release.version ++ "/" ++ asset.name

/-- `const sha256Url`, line 29. -/
def sha256Url (release : Release) (asset : Asset) : String :=
  "downloads/agent/" ++ release.version ++ "/" ++ asset.name ++ ".sha256"

/-- The row of one asset: the function mapped over `release.assets`, lines 27-41. -/
def assetRow (release : Release) (asset : Asset) : String :=
  "\n" ++
  "                            <div class=\"asset-row\">\n" ++
  "                                <div class=\"asset-info\">\n" ++
  "                                    <span class=\"asset-name\">" ++ asset.name ++ "</span>\n" ++
  "                                    <span class=\"asset-arch\">" ++ asset.arch ++ "</span>\n" ++
  "                                </div>\n" ++
  "                                <div class=\"asset-actions\">\n" ++
  "                                    " ++ (if asset.hasSha256 then "<a href=\"" ++ sha256Url release asset ++ "\" class=\"btn-hash\" title=\"Download SHA256\">SHA256</a>" else "") ++ "\n" ++
  "                                    <a href=\"" ++ downloadUrl release asset ++ "\" class=\"btn-download\">Download</a>\n" ++
  "                                </div>\n" ++
  "                            </div>"

/-- `const assetsHtml`, lines 27-42. -/
def assetsHtml (release : Release) : String :=
  join "" (release.assets.map (assetRow release))

/-- `generateReleaseCard(release, repo)`, lines 16-56. -/
def generateReleaseCard (host : Host) (release : Release) (_repo : String) : String :=
  "\n" ++
  "                    <div class=\"release-card\">\n" ++
  "                        <div class=\"release-header\">\n" ++
  "                            <div class=\"release-info\">\n" ++
  "                                <span class=\"release-version\">" ++ release.version ++ "</span>\n" ++
  "                                " ++ join "\n                                " (badges release) ++ "\n" ++
  "                            </div>\n" ++
  "                            <span class=\"release-date\">" ++ formatDate host release.date ++ "</span>\n" ++
  "                        </div>\n" ++
  "                        <div class=\"release-assets\">" ++ assetsHtml release ++ "\n" ++
  "                        </div>\n" ++
  "                    </div>"

/-- `const usageCmd`, lines 59-61. -/
def usageCmd (baseUrl : String) (script : Script) (type : String) : String :=
  if type = "stack" then "curl -sSL " ++ baseUrl ++ "/" ++ script.file ++ " | bash"
  else "curl -sSL " ++ baseUrl ++ "/" ++ script.file ++ " | sudo bash -s -- -p postgres"

/-- The variable `optionsHtml`, lines 63-76: an array is truthy also when empty. -/
def optionsHtml (script : Script) : String :=
  match script.features with
  | some features =>
    "\n" ++
    "                            <h4>Features:</h4>\n" ++
    "                            <ul>\n" ++
    "                                " ++ join "\n                                " (features.map (fun f => "<li>" ++ f ++ "</li>")) ++ "\n" ++
    "                            </ul>"
  | none =>
    match script.options with
    | some options =>
      "\n" ++
      "                            <h4>Options:</h4>\n" ++
      "                            <ul>\n" ++
      "                                " ++ join "\n                                " (options.map (fun o => "<li><code>" ++ o.flag ++ "</code> - " ++ o.desc ++ "</li>")) ++ "\n" ++
      "                            </ul>"
    | none => ""

/-- `const icon`, lines 78-87. -/
def icon (type : String) : String :=
  if type = "stack" then
    "<svg width=\"24\" height=\"24\" viewBox=\"0 0 24 24\" fill=\"none\" stroke=\"currentColor\" stroke-width=\"2\">\n" ++
    "                                <rect x=\"2\" y=\"3\" width=\"20\" height=\"14\" rx=\"2\" ry=\"2\"></rect>\n" ++
    "                                <line x1=\"8\" y1=\"21\" x2=\"16\" y2=\"21\"></line>\n" ++
    "                                <line x1=\"12\" y1=\"17\" x2=\"12\" y2=\"21\"></line>\n" ++
    "                            </svg>"
  else
    "<svg width=\"24\" height=\"24\" viewBox=\"0 0 24 24\" fill=\"none\" stroke=\"currentColor\" stroke-width=\"2\">\n" ++
    "                                <polyline points=\"4 17 10 11 4 5\"></polyline>\n" ++
    "                                <line x1=\"12\" y1=\"19\" x2=\"20\" y2=\"19\"></line>\n" ++
    "                            </svg>"

/-- `generateScriptCard(script, type)`, lines 58-105; the global `baseUrl` it reads is
its first argument here. -/
def generateScriptCard (baseUrl : String) (script : Script) (type : String) : String :=
  "\n" ++
  "                    <div class=\"script-card\">\n" ++
  "                        <div class=\"script-icon\">\n" ++
  "                            " ++ icon type ++ "\n" ++
  "                        </div>\n" ++
  "                        <h3>" ++ script.name ++ "</h3>\n" ++
  "                        <p>" ++ script.description ++ "</p>\n" ++
  "                        <div class=\"script-usage\">\n" ++
  "                            <div class=\"code-block small\">\n" ++
  "                                <code>" ++ usageCmd baseUrl script type ++ "</code>\n" ++
  "                            </div>\n" ++
  "                        </div>\n" ++
  "                        <div class=\"script-options\">" ++ optionsHtml script ++ "\n" ++
  "                        </div>\n" ++
  "                        <a href=\"" ++ script.file ++ "\" download class=\"btn-download full-width\">Download " ++ script.file ++ "</a>\n" ++
  "                    </div>"

/-- `const latestVersion`, line 107:
`data.agent.releases.find(r => r.latest)?.version || data.agent.releases[0].version`. -/
def latestVersion (data : Manifest) : Except JsError String :=
  let found : Option String := (data.agent.releases.find? (fun r => r.latest)).map (fun r => r.version)
  match found with
  | some v =>
    if truthy v then .ok v
    else readProp (data.agent.releases[0]?) "version" (fun r => r.version)
  | none => readProp (data.agent.releases[0]?) "version" (fun r => r.version)

/-- The template literal of lines 109-225 with its six interpolated values. -/
def page (baseUrl stackFile agentFile releaseCards stackCard agentCard : String) : String :=
  "<!DOCTYPE html>\n" ++
  "<html lang=\"en\">\n" ++
  "<head>\n" ++
  "    <meta charset=\"UTF-8\">\n" ++
  "    <meta name=\"viewport\" content=\"width=device-width, initial-scale=1.0\">\n" ++
  "    <title>ClusterEye Archive - Official Downloads</title>\n" ++
  "    <link rel=\"stylesheet\" href=\"style.css\">\n" ++
  "    <link href=\"https://fonts.googleapis.com/css2?family=Inter:wght@400;500;600;700&display=swap\" rel=\"stylesheet\">\n" ++
  "</head>\n" ++
  "<body>\n" ++
  "    <header>\n" ++
  "        <div class=\"container\">\n" ++
  "            <div class=\"logo\">ClusterEye<span class=\"logo-accent\">Archive</span></div>\n" ++
  "            <p class=\"subtitle\">Pre-compiled binaries and installation scripts for ClusterEye</p>\n" ++
  "        </div>\n" ++
  "    </header>\n" ++
  "\n" ++
  "    <main class=\"container\">\n" ++
  "        <!-- Quick Install Section -->\n" ++
  "        <section class=\"section\">\n" ++
  "            <h2 class=\"section-title\">Quick Install</h2>\n" ++
  "            <div class=\"install-cards\">\n" ++
  "                <div class=\"install-card\">\n" ++
  "                    <div class=\"install-header\">\n" ++
  "                        <span class=\"install-icon\">$</span>\n" ++
  "                        <span class=\"install-label\">Full Stack (Kind + Helm)</span>\n" ++
  "                    </div>\n" ++
  "                    <div class=\"code-block\">\n" ++
  "                        <code id=\"stack-cmd\">curl -sSL " ++ baseUrl ++ "/" ++ stackFile ++ " | bash</code>\n" ++
  "                        <button class=\"copy-btn\" onclick=\"copyToClipboard('stack-cmd')\" title=\"Copy to clipboard\">\n" ++
  "                            <svg width=\"16\" height=\"16\" viewBox=\"0 0 16 16\" fill=\"currentColor\">\n" ++
  "                                <path d=\"M0 6.75C0 5.784.784 5 1.75 5h1.5a.75.75 0 010 1.5h-1.5a.25.25 0 00-.25.25v7.5c0 .138.112.25.25.25h7.5a.25.25 0 00.25-.25v-1.5a.75.75 0 011.5 0v1.5A1.75 1.75 0 019.25 16h-7.5A1.75 1.75 0 010 14.25v-7.5z\"/>\n" ++
  "                                <path d=\"M5 1.75C5 .784 5.784 0 6.75 0h7.5C15.216 0 16 .784 16 1.75v7.5A1.75 1.75 0 0114.25 11h-7.5A1.75 1.75 0 015 9.25v-7.5zm1.75-.25a.25.25 0 00-.25.25v7.5c0 .138.112.25.25.25h7.5a.25.25 0 00.25-.25v-7.5a.25.25 0 00-.25-.25h-7.5z\"/>\n" ++
  "                            </svg>\n" ++
  "                        </button>\n" ++
  "                    </div>\n" ++
  "                    <p class=\"install-note\">Installs Kind, Helm, and the complete ClusterEye stack on Ubuntu 24.04</p>\n" ++
  "                </div>\n" ++
  "                <div class=\"install-card\">\n" ++
  "                    <div class=\"install-header\">\n" ++
  "                        <span class=\"install-icon\">$</span>\n" ++
  "                        <span class=\"install-label\">Agent Only (Linux)</span>\n" ++
  "                    </div>\n" ++
  "                    <div class=\"code-block\">\n" ++
  "                        <code id=\"agent-cmd\">curl -sSL " ++ baseUrl ++ "/" ++ agentFile ++ " | sudo bash -s -- -p postgres</code>\n" ++
  "                        <button class=\"copy-btn\" onclick=\"copyToClipboard('agent-cmd')\" title=\"Copy to clipboard\">\n" ++
  "                            <svg width=\"16\" height=\"16\" viewBox=\"0 0 16 16\" fill=\"currentColor\">\n" ++
  "                                <path d=\"M0 6.75C0 5.784.784 5 1.75 5h1.5a.75.75 0 010 1.5h-1.5a.25.25 0 00-.25.25v7.5c0 .138.112.25.25.25h7.5a.25.25 0 00.25-.25v-1.5a.75.75 0 011.5 0v1.5A1.75 1.75 0 019.25 16h-7.5A1.75 1.75 0 010 14.25v-7.5z\"/>\n" ++
  "                                <path d=\"M5 1.75C5 .784 5.784 0 6.75 0h7.5C15.216 0 16 .784 16 1.75v7.5A1.75 1.75 0 0114.25 11h-7.5A1.75 1.75 0 015 9.25v-7.5zm1.75-.25a.25.25 0 00-.25.25v7.5c0 .138.112.25.25.25h7.5a.25.25 0 00.25-.25v-7.5a.25.25 0 00-.25-.25h-7.5z\"/>\n" ++
  "                            </svg>\n" ++
  "                        </button>\n" ++
  "                    </div>\n" ++
  "                    <p class=\"install-note\">Platforms: <code>postgres</code>, <code>mongo</code>, <code>mssql</code></p>\n" ++
  "                </div>\n" ++
  "            </div>\n" ++
  "        </section>\n" ++
  "\n" ++
  "        <!-- Tabs Navigation -->\n" ++
  "        <section class=\"section\">\n" ++
  "            <div class=\"tabs\">\n" ++
  "                <button class=\"tab active\" data-tab=\"agent\">ClusterEye Agent</button>\n" ++
  "                <button class=\"tab\" data-tab=\"scripts\">Install Scripts</button>\n" ++
  "            </div>\n" ++
  "\n" ++
  "            <!-- Agent Tab Content -->\n" ++
  "            <div class=\"tab-content active\" id=\"agent-content\">\n" ++
  "                <div class=\"releases\">\n" ++
  releaseCards ++ "\n" ++
  "                </div>\n" ++
  "            </div>\n" ++
  "\n" ++
  "            <!-- Scripts Tab Content -->\n" ++
  "            <div class=\"tab-content\" id=\"scripts-content\">\n" ++
  "                <div class=\"scripts-grid\">\n" ++
  stackCard ++ "\n" ++
  agentCard ++ "\n" ++
  "                </div>\n" ++
  "            </div>\n" ++
  "        </section>\n" ++
  "    </main>\n" ++
  "\n" ++
  "    <footer>\n" ++
  "        <div class=\"container\">\n" ++
  "            <p>Maintained by <a href=\"https://github.com/CloudNativeWorks\">CloudNativeWorks</a></p>\n" ++
  "            <p class=\"footer-links\">\n" ++
  "                <a href=\"https://github.com/CloudNativeWorks/clustereye-agent\">GitHub</a>\n" ++
  "                <span class=\"separator\">|</span>\n" ++
  "                <a href=\"https://github.com/CloudNativeWorks/clustereye-agent/issues\">Issues</a>\n" ++
  "            </p>\n" ++
  "        </div>\n" ++
  "    </footer>\n" ++
  "\n" ++
  "    <script>\n" ++
  "        // Tab switching\n" ++
  "        document.querySelectorAll('.tab').forEach(tab => \x7b\n" ++
  "            tab.addEventListener('click', () => \x7b\n" ++
  "                document.querySelectorAll('.tab').forEach(t => t.classList.remove('active'));\n" ++
  "                document.querySelectorAll('.tab-content').forEach(c => c.classList.remove('active'));\n" ++
  "\n" ++
  "                tab.classList.add('active');\n" ++
  "                document.getElementById(tab.dataset.tab + '-content').classList.add('active');\n" ++
  "            \x7d);\n" ++
  "        \x7d);\n" ++
  "\n" ++
  "        // Copy to clipboard\n" ++
  "        function copyToClipboard(elementId) \x7b\n" ++
  "            const text = document.getElementById(elementId).textContent;\n" ++
  "            navigator.clipboard.writeText(text).then(() => \x7b\n" ++
  "                const btn = document.querySelector(`#$\x7belementId\x7d`).parentElement.querySelector('.copy-btn');\n" ++
  "                btn.classList.add('copied');\n" ++
  "                setTimeout(() => btn.classList.remove('copied'), 2000);\n" ++
  "            \x7d);\n" ++
  "        \x7d\n" ++
  "    </script>\n" ++
  "</body>\n" ++
  "</html>\n"

/-- `const html`, lines 109-225: the interpolated expressions are evaluated in source
order, so a missing `scripts.stack` or `scripts.agent` throws at line 137 or 153;
`generateScriptCard` reads `script.file` first (line 60). -/
def html (host : Host) (data : Manifest) : Except JsError String := do
  let baseUrl := baseUrl data.domain
  let stackFile ← readProp data.scripts.stack "file" (fun s => s.file)
  let agentFile ← readProp data.scripts.agent "file" (fun s => s.file)
  let releaseCards :=
    join "\n" (data.agent.releases.map (fun r => generateReleaseCard host r data.agent.repo))
  let stackCard ← readProp data.scripts.stack "file" (fun s => generateScriptCard baseUrl s "stack")
  let agentCard ← readProp data.scripts.agent "file" (fun s => generateScriptCard baseUrl s "agent")
  pure (page baseUrl stackFile agentFile releaseCards stackCard agentCard)

/-- What a run of the script leaves behind. -/
structure RunResult where
  /-- The string handed to `fs.writeFileSync(outputPath, ·)`; `none` when the run
  never reached line 227. -/
  written : Option String
  /-- Lines printed by `console.log`. -/
  stdout : List String
  /-- The uncaught exception that ended the run, if any. -/
  error : Option JsError
  deriving Repr, DecidableEq

/-- The script from line 8 on, given the parsed manifest `data` of line 7. -/
def run (host : Host) (data : Manifest) : RunResult :=
  match latestVersion data with
  | .error e => ⟨none, [], some e⟩
  | .ok _ =>
    match html host data with
    | .error e => ⟨none, [], some e⟩
    | .ok out =>
      if host.writeFails then ⟨some out, [], some .ioError⟩
      else ⟨some out, ["Generated index.html successfully"], none⟩

/-! ## Vocabulary of the statements -/

/-- Whether the pattern `t` starts at some position of a text. -/
def occursIn (t : List Char) : List Char → Bool
  | [] => t.isEmpty
  | c :: s => t.isPrefixOf (c :: s) || occursIn t s

/-- The string `t` occurs in `s` as a contiguous piece. -/
def Occurs (t s : String) : Prop := occursIn t.data s.data = true

instance instDecidableOccurs (t s : String) : Decidable (Occurs t s) :=
  inferInstanceAs (Decidable (occursIn t.data s.data = true))

/-- Number of positions of a text at which the pattern `p` starts. -/
def countStarts (p : List Char) : List Char → Nat
  | [] => 0
  | c :: s => (if p.isPrefixOf (c :: s) then 1 else 0) + countStarts p s

/-- Number of occurrences of the non-empty string `p` in `s`. -/
def countIn (p s : String) : Nat := countStarts p.data s.data

/-- The string `s` has no `<`: interpolated into markup it opens no tag. -/
def TagFree (s : String) : Prop := '<' ∉ s.data

instance instDecidableTagFree (s : String) : Decidable (TagFree s) :=
  inferInstanceAs (Decidable ('<' ∉ s.data))

/-- Whether no occurrence of `p` can begin in the text `A` and end beyond it: no
non-empty end of `A` shorter than `p` is a start of `p`. -/
def noStraddle (p : List Char) : List Char → Bool
  | [] => true
  | c :: A => (decide (p.length ≤ (c :: A).length) || !(c :: A).isPrefixOf p) && noStraddle p A

/-- The strings of a release open no tag of their own. -/
def ReleaseTagFree (r : Release) : Prop :=
  TagFree r.version ∧ (∀ label ∈ r.badges.getD [], TagFree label) ∧
    ∀ a ∈ r.assets, TagFree a.name ∧ TagFree a.arch

instance instDecidableReleaseTagFree (r : Release) : Decidable (ReleaseTagFree r) :=
  inferInstanceAs (Decidable (TagFree r.version ∧ (∀ label ∈ r.badges.getD [], TagFree label) ∧
    ∀ a ∈ r.assets, TagFree a.name ∧ TagFree a.arch))

/-- The strings of a script descriptor open no tag of their own. -/
def ScriptTagFree (s : Script) : Prop :=
  TagFree s.name ∧ TagFree s.description ∧ TagFree s.file ∧
    (∀ f ∈ s.features.getD [], TagFree f) ∧
    ∀ o ∈ s.options.getD [], TagFree o.flag ∧ TagFree o.desc

instance instDecidableScriptTagFree (s : Script) : Decidable (ScriptTagFree s) :=
  inferInstanceAs (Decidable (TagFree s.name ∧ TagFree s.description ∧ TagFree s.file ∧
    (∀ f ∈ s.features.getD [], TagFree f) ∧
    ∀ o ∈ s.options.getD [], TagFree o.flag ∧ TagFree o.desc))

/-- The decimal digit of the units of `n`. -/
def digitChar (n : Nat) : Char := Char.ofNat (48 + n % 10)

/-- The date-only string `YYYY-MM-DD` of year `y`, month `m` and day `d`, zero-padded. -/
def isoDateString (y m d : Nat) : String :=
  String.mk [digitChar (y / 1000), digitChar (y / 100), digitChar (y / 10), digitChar y, '-',
    digitChar (m / 10), digitChar m, '-', digitChar (d / 10), digitChar d]

/-! ## Sample inputs -/

/-- A machine in the UTC time zone whose engine rejects every non-ISO date string. -/
def utcHost : Host :=
  { localOffsetMinutes := fun _ => 0, fallbackParse := fun _ => none, writeFails := false }

/-- The asset of the link-shape example: `agent-linux-amd64` with a checksum file. -/
def amd64Asset : Asset :=
  { name := "agent-linux-amd64", arch := "Linux x86_64", hasSha256 := true }

/-- An asset without a checksum file. -/
def arm64Asset : Asset :=
  { name := "agent-linux-arm64", arch := "Linux ARM64", hasSha256 := false }

/-- Release 1.4.0, marked latest, with one label badge and two assets. -/
def release140 : Release :=
  { version := "1.4.0", date := "2024-01-15", latest := true, badges := some ["ARM64"],
    assets := [amd64Asset, arm64Asset] }

/-- Release 1.3.0, not marked, without the `badges` key. -/
def release130 : Release :=
  { version := "1.3.0", date := "2023-12-01", latest := false, badges := none, assets := [] }

/-- A release marked latest whose version is the empty string. -/
def releaseNoVersion : Release :=
  { version := "", date := "2023-11-01", latest := true, badges := none, assets := [] }

/-- The stack script descriptor, with a feature list. -/
def stackScript : Script :=
  { name := "Stack", description := "Kind, Helm and the full stack", file := "install-stack.sh",
    features := some ["A", "B"], options := none }

/-- The agent script descriptor, with an option list. -/
def agentScript : Script :=
  { name := "Agent", description := "Agent only", file := "install-agent.sh",
    features := none, options := some [{ flag := "-p", desc := "platform" }] }

/-- A descriptor that supplies both `features` and `options`. -/
def bothScript : Script :=
  { name := "Both", description := "Features and options", file := "install.sh",
    features := some ["A", "B"], options := some [{ flag := "-p", desc := "platform" }] }

/-- A complete manifest: the marked release is the second of the sequence. -/
def sampleData : Manifest :=
  { domain := some "dl.example.com",
    agent := { repo := "CloudNativeWorks/clustereye-agent", releases := [release130, release140] },
    scripts := { stack := some stackScript, agent := some agentScript } }

/-- A manifest whose only marked release carries the empty version and is not the first. -/
def noVersionData : Manifest :=
  { sampleData with
    agent := { repo := "CloudNativeWorks/clustereye-agent",
               releases := [release130, releaseNoVersion] } }

/-- A manifest without the `domain` key. -/
def noDomainData : Manifest := { sampleData with domain := none }

/-- A manifest without the `scripts.agent` key. -/
def noAgentScriptData : Manifest :=
  { sampleData with scripts := { stack := some stackScript, agent := none } }

/-- A manifest without the `scripts.stack` key. -/
def noStackScriptData : Manifest :=
  { sampleData with scripts := { stack := none, agent := some agentScript } }

/-- A manifest whose `agent.releases` is the empty array. -/
def noReleasesData : Manifest :=
  { sampleData with agent := { repo := "CloudNativeWorks/clustereye-agent", releases := [] } }

/-- A release whose strings hold the four characters of markup. -/
def markupRelease : Release :=
  { version := "1.0<beta>", date := "2024-01-15", latest := false, badges := some ["a&b"],
    assets := [{ name := "agent\"x", arch := "<i>", hasSha256 := false }] }

/-- A manifest with `markupRelease` as its only release. -/
def markupData : Manifest :=
  { sampleData with
    agent := { repo := "CloudNativeWorks/clustereye-agent", releases := [markupRelease] } }

/-- An asset without a checksum file whose `arch` string is itself the text of a checksum
anchor for version 1.4.0. -/
def anchorArchAsset : Asset :=
  { name := "agent-linux-arm64",
    arch := "<a href=\"downloads/agent/1.4.0/agent-linux-arm64.sha256\" class=\"btn-hash\" title=\"Download SHA256\">SHA256</a>",
    hasSha256 := false }

/-- Release 1.4.0 with `anchorArchAsset` as its only asset. -/
def anchorArchRelease : Release :=
  { version := "1.4.0", date := "2024-01-15", latest := true, badges := none,
    assets := [anchorArchAsset] }

/-- A machine five hours behind UTC, as New York is in winter. -/
def newYorkHost : Host :=
  { localOffsetMinutes := fun _ => -300, fallbackParse := fun _ => none, writeFails := false }

/-- A release whose `date` is no date. -/
def undatedRelease : Release :=
  { version := "1.2.0", date := "soon", latest := false, badges := none, assets := [] }

/-- A manifest with `undatedRelease` as its only release. -/
def undatedData : Manifest :=
  { sampleData with
    agent := { repo := "CloudNativeWorks/clustereye-agent", releases := [undatedRelease] } }

/-- The text a run hands to `writeFileSync`, empty when it never gets there. -/
def writtenPage (host : Host) (data : Manifest) : String :=
  (run host data).written.getD ""

/-! ## Strings -/

/-- The scan `occursIn` decides whether `t` is an infix of the text. -/
theorem occursIn_spec (t : List Char) : ∀ s : List Char, occursIn t s = true ↔ t <:+: s
  | [] => by simp [occursIn]
  | c :: s => by
    rw [occursIn, Bool.or_eq_true, occursIn_spec t s, List.infix_cons_iff,
      List.isPrefixOf_iff_prefix]

/-- `Occurs t s` says that `s` is some `pre ++ t ++ post`. -/
theorem occurs_spec (t s : String) : Occurs t s ↔ t.data <:+: s.data :=
  occursIn_spec t.data s.data

theorem occurs_refl (s : String) : Occurs s s :=
  (occurs_spec s s).mpr (List.infix_refl _)

theorem occurs_trans {a b c : String} (h1 : Occurs a b) (h2 : Occurs b c) : Occurs a c :=
  (occurs_spec a c).mpr
    (List.IsInfix.trans ((occurs_spec a b).mp h1) ((occurs_spec b c).mp h2))

theorem occurs_append_left {t a : String} (b : String) (h : Occurs t a) :
    Occurs t (a ++ b) := by
  rw [occurs_spec] at *
  rw [String.data_append]
  exact List.IsInfix.trans h (List.prefix_append _ _).isInfix

theorem occurs_append_right {t b : String} (a : String) (h : Occurs t b) :
    Occurs t (a ++ b) := by
  rw [occurs_spec] at *
  rw [String.data_append]
  exact List.IsInfix.trans h (List.suffix_append _ _).isInfix

/-- A value `v` interpolated between the pieces `A` and `B` of a template carries with
it any end `L` of `A` and any start `R` of `B`. -/
theorem occurs_around {L A R B : String} (P v : String)
    (hL : L.data <:+ A.data) (hR : R.data <+: B.data) :
    Occurs (L ++ v ++ R) (P ++ A ++ v ++ B) := by
  obtain ⟨a, ha⟩ := hL
  obtain ⟨b, hb⟩ := hR
  rw [occurs_spec]
  simp only [String.data_append]
  refine ⟨P.data ++ a, b, ?_⟩
  rw [← ha, ← hb]
  simp [List.append_assoc]

/-- Every element of an array occurs in its `join`. -/
theorem occurs_join_of_mem (sep : String) {x : String} :
    ∀ {xs : List String}, x ∈ xs → Occurs x (join sep xs)
  | [], h => by simp at h
  | [y], h => by
    have hxy : x = y := by simpa using h
    subst hxy
    exact occurs_refl _
  | y :: z :: rest, h => by
    rw [join]
    rcases List.mem_cons.mp h with hxy | hmem
    · subst hxy
      exact occurs_append_left _ (occurs_append_left _ (occurs_refl _))
    · exact occurs_append_right _ (occurs_join_of_mem sep hmem)

/-! ### Counting occurrences -/

theorem isPrefixOf_append_of_length_le :
    ∀ (p A B : List Char), p.length ≤ A.length → p.isPrefixOf (A ++ B) = p.isPrefixOf A
  | [], _, _, _ => by simp [List.isPrefixOf]
  | _ :: _, [], _, h => by simp at h
  | a :: p, x :: A, B, h => by
    have ih := isPrefixOf_append_of_length_le p A B (by simpa using h)
    simp [List.isPrefixOf, ih]

theorem isPrefixOf_cons_of_ne {c x : Char} (q s : List Char) (h : x ≠ c) :
    (c :: q).isPrefixOf (x :: s) = false := by
  simp [List.isPrefixOf, Ne.symm h]

/-- A text without the first character of the pattern holds no occurrence. -/
theorem countStarts_clean {c : Char} (q : List Char) :
    ∀ {v : List Char}, c ∉ v → countStarts (c :: q) v = 0
  | [], _ => rfl
  | x :: v, h => by
    have hx : x ≠ c := fun e => h (e ▸ List.mem_cons_self _ _)
    have hv : c ∉ v := fun e => h (List.mem_cons_of_mem _ e)
    simp [countStarts, isPrefixOf_cons_of_ne q v hx, countStarts_clean q hv]

/-- No occurrence starts inside a piece that lacks the first character of the pattern. -/
theorem countStarts_append_clean {c : Char} (q B : List Char) :
    ∀ {v : List Char}, c ∉ v → countStarts (c :: q) (v ++ B) = countStarts (c :: q) B
  | [], _ => rfl
  | x :: v, h => by
    have hx : x ≠ c := fun e => h (e ▸ List.mem_cons_self _ _)
    have hv : c ∉ v := fun e => h (List.mem_cons_of_mem _ e)
    simp [countStarts, isPrefixOf_cons_of_ne q (v ++ B) hx, countStarts_append_clean q B hv]

/-- Occurrences add up over `A ++ B` when none can straddle the seam: the first
character of the pattern is not among the last `q.length` characters of `A`. -/
theorem countStarts_append_literal {c : Char} (q B : List Char) :
    ∀ {A : List Char}, c ∉ A.drop (A.length - q.length) →
      countStarts (c :: q) (A ++ B) = countStarts (c :: q) A + countStarts (c :: q) B
  | [], _ => by simp [countStarts]
  | x :: A, h => by
    have hA : c ∉ A.drop (A.length - q.length) := by
      intro hmem
      apply h
      by_cases hlen : q.length ≤ A.length
      · have e : (x :: A).length - q.length = (A.length - q.length) + 1 := by
          simp only [List.length_cons]; omega
        rw [e, List.drop_succ_cons]
        exact hmem
      · have e : (x :: A).length - q.length = 0 := by
          simp only [List.length_cons]; omega
        rw [e, List.drop_zero]
        exact List.mem_cons_of_mem _ (List.mem_of_mem_drop hmem)
    have ih := countStarts_append_literal q B hA
    have hhead : (c :: q).isPrefixOf (x :: A ++ B) = (c :: q).isPrefixOf (x :: A) := by
      by_cases hlen : q.length ≤ A.length
      · exact isPrefixOf_append_of_length_le (c :: q) (x :: A) B (by simpa using hlen)
      · have e : (x :: A).length - q.length = 0 := by
          simp only [List.length_cons]; omega
        rw [e, List.drop_zero] at h
        have hx : x ≠ c := fun e => h (e ▸ List.mem_cons_self _ _)
        rw [List.cons_append, isPrefixOf_cons_of_ne q _ hx, isPrefixOf_cons_of_ne q _ hx]
    show countStarts (c :: q) (x :: (A ++ B)) = _
    simp only [countStarts]
    rw [← List.cons_append, hhead, ih]
    omega

/-- Occurrences in a `join`: the sum over the items, when the separator lacks the first
character of the pattern and no item ends in a way that lets an occurrence straddle. -/
theorem countStarts_join {c : Char} (q : List Char) (sep : String) (hsep : c ∉ sep.data) :
    ∀ (xs : List String), (∀ x ∈ xs, c ∉ x.data.drop (x.data.length - q.length)) →
      countStarts (c :: q) (join sep xs).data = (xs.map (fun x => countStarts (c :: q) x.data)).sum
  | [], _ => rfl
  | [x], _ => by simp [join]
  | x :: y :: rest, h => by
    have ih := countStarts_join q sep hsep (y :: rest)
      (fun z hz => h z (List.mem_cons_of_mem _ hz))
    have hx := h x (List.mem_cons_self _ _)
    rw [join]
    simp only [String.data_append, List.append_assoc]
    rw [countStarts_append_literal q _ hx, countStarts_append_clean q _ hsep, ih]
    simp

/-- A long enough last piece decides alone whether a text ends safely. -/
theorem not_mem_drop_append {c : Char} (k : Nat) (X Y : List Char) (hk : k ≤ Y.length)
    (h : c ∉ Y.drop (Y.length - k)) : c ∉ (X ++ Y).drop ((X ++ Y).length - k) := by
  have e : (X ++ Y).length - k = X.length + (Y.length - k) := by
    simp only [List.length_append]; omega
  rw [e, List.drop_append]
  exact h

/-- A pattern is matched inside `A` alone when the character after `A` is not in it. -/
theorem isPrefixOf_append_of_next_not_mem {b : Char} (B : List Char) :
    ∀ (q A : List Char), b ∉ q → q.isPrefixOf (A ++ b :: B) = q.isPrefixOf A
  | [], _, _ => by simp [List.isPrefixOf]
  | a :: q, [], h => by
    have hab : a ≠ b := fun e => h (e ▸ List.mem_cons_self _ _)
    simp [List.isPrefixOf, hab]
  | a :: q, x :: A, h => by
    have ih := isPrefixOf_append_of_next_not_mem B q A (fun e => h (List.mem_cons_of_mem _ e))
    simp [List.isPrefixOf, ih]

/-- Occurrences add up over `A ++ b :: B` when `b` is not among the characters of the
pattern after its first. -/
theorem countStarts_append_of_next_not_mem {c b : Char} (q B : List Char) (hb : b ∉ q) :
    ∀ (A : List Char),
      countStarts (c :: q) (A ++ b :: B) = countStarts (c :: q) A + countStarts (c :: q) (b :: B)
  | [] => by simp [countStarts]
  | x :: A => by
    have ih := @countStarts_append_of_next_not_mem c b q B hb A
    have hq := isPrefixOf_append_of_next_not_mem B q A hb
    show countStarts (c :: q) (x :: (A ++ b :: B)) = _
    rw [countStarts, ih]
    conv_rhs => rw [countStarts]
    simp only [List.isPrefixOf, hq]
    omega

/-- The total over a mapped list whose items all hold `n` occurrences. -/
theorem sum_count_map {α : Type} (p : List Char) (g : α → String) (n : Nat) :
    ∀ (xs : List α), (∀ x ∈ xs, countStarts p (g x).data = n) →
      ((xs.map g).map (fun s => countStarts p s.data)).sum = n * xs.length
  | [], _ => by simp
  | x :: xs, h => by
    have ih := sum_count_map p g n xs (fun y hy => h y (List.mem_cons_of_mem _ hy))
    simp only [List.map_cons, List.sum_cons, List.length_cons, ih, h x (List.mem_cons_self _ _)]
    rw [Nat.mul_succ, Nat.add_comm]



/-- Two patterns that part ways after a common start `c1` never start at the same
position, so their occurrences are counted apart among those of any start of `c1`. -/
theorem countStarts_add_le (p0 c1 : List Char) (a b : Char) (r1 r2 : List Char)
    (hab : a ≠ b) (hp0 : p0 <+: c1) :
    ∀ s : List Char,
      countStarts (c1 ++ a :: r1) s + countStarts (c1 ++ b :: r2) s ≤ countStarts p0 s
  | [] => by simp [countStarts]
  | x :: s => by
    have ih := countStarts_add_le p0 c1 a b r1 r2 hab hp0 s
    have h0 : ∀ r : List Char, (c1 ++ r).isPrefixOf (x :: s) = true →
        p0.isPrefixOf (x :: s) = true := by
      intro r h
      rw [List.isPrefixOf_iff_prefix] at *
      exact hp0.trans ((List.prefix_append c1 r).trans h)
    have h12 : (c1 ++ a :: r1).isPrefixOf (x :: s) = true →
        (c1 ++ b :: r2).isPrefixOf (x :: s) = true → False := by
      intro h1 h2
      rw [List.isPrefixOf_iff_prefix] at h1 h2
      obtain ⟨t1, e1⟩ := h1
      obtain ⟨t2, e2⟩ := h2
      have e : c1 ++ (a :: r1 ++ t1) = c1 ++ (b :: r2 ++ t2) := by
        rw [← List.append_assoc, ← List.append_assoc, e1, e2]
      have e3 := List.append_cancel_left e
      injection e3 with e4 _
      exact hab e4
    simp only [countStarts]
    rcases Bool.eq_false_or_eq_true ((c1 ++ a :: r1).isPrefixOf (x :: s)) with h1 | h1 <;>
      rcases Bool.eq_false_or_eq_true ((c1 ++ b :: r2).isPrefixOf (x :: s)) with h2 | h2 <;>
      rcases Bool.eq_false_or_eq_true (p0.isPrefixOf (x :: s)) with hp | hp
    · exact absurd h2 (fun h => h12 h1 h)
    · exact absurd h2 (fun h => h12 h1 h)
    · simp only [h1, h2, hp, if_true, Bool.false_eq_true, if_false]
      omega
    · rw [h0 _ h1] at hp
      cases hp
    · simp only [h1, h2, hp, if_true, Bool.false_eq_true, if_false]
      omega
    · rw [h0 _ h2] at hp
      cases hp
    · simp only [h1, h2, hp, if_true, Bool.false_eq_true, if_false]
      omega
    · simp only [h1, h2, hp, if_true, Bool.false_eq_true, if_false]
      omega

/-- A pattern that occurs starts somewhere. -/
theorem countStarts_pos_of_occursIn (p : List Char) (hp : p ≠ []) :
    ∀ s : List Char, occursIn p s = true → 0 < countStarts p s
  | [] => by
    intro h
    rw [occursIn, List.isEmpty_iff] at h
    exact absurd h hp
  | x :: s => by
    intro h
    rw [occursIn, Bool.or_eq_true] at h
    rw [countStarts]
    rcases h with h | h
    · simp only [h, if_true]
      omega
    · have := countStarts_pos_of_occursIn p hp s h
      omega

/-- When the start `p0` occurs once and the pattern `c1 ++ b :: r2` is there, a rival
pattern `c1 ++ a :: r1` with `a ≠ b` is not. -/
theorem not_occursIn_of_rival (p0 c1 : List Char) (a b : Char) (r1 r2 : List Char)
    (hab : a ≠ b) (hp0 : p0 <+: c1) (s : List Char) (hcount : countStarts p0 s = 1)
    (hrival : occursIn (c1 ++ b :: r2) s = true) :
    ¬ occursIn (c1 ++ a :: r1) s = true := by
  intro h
  have hle := countStarts_add_le p0 c1 a b r1 r2 hab hp0 s
  have h1 := countStarts_pos_of_occursIn _ (by simp) s h
  have h2 := countStarts_pos_of_occursIn _ (by simp) s hrival
  omega

/-! ## Latest version (line 107) -/

theorem find_latest_of_split {pre post : List Release} {r : Release}
    (hpre : ∀ x ∈ pre, x.latest = false) (hr : r.latest = true) :
    (pre ++ r :: post).find? (fun r => r.latest) = some r := by
  induction pre with
  | nil => simp [List.find?, hr]
  | cons a pre ih =>
    have ha : a.latest = false := hpre a (List.mem_cons_self _ _)
    have ih2 := ih (fun x hx => hpre x (List.mem_cons_of_mem _ hx))
    simp [List.find?, ha, ih2]

theorem find_latest_of_unmarked {rs : List Release} (h : ∀ x ∈ rs, x.latest = false) :
    rs.find? (fun r => r.latest) = none := by
  rw [List.find?_eq_none]
  intro x hx
  simp [h x hx]

/-- C1 (as amended): on a non-empty `agent.releases`, `latestVersion` is the version of
the first release in sequence order whose `latest` flag is true, provided that version
is a non-empty string (one marked release: its version; several: the earliest), and it
is the version of the first release of the sequence when no release is marked. -/
theorem latestVersion_first_marked (data : Manifest) (first : Release) (rest : List Release)
    (hne : data.agent.releases = first :: rest) :
    (∀ pre r post, data.agent.releases = pre ++ r :: post →
        (∀ x ∈ pre, x.latest = false) → r.latest = true → r.version ≠ "" →
        latestVersion data = .ok r.version) ∧
    ((∀ x ∈ data.agent.releases, x.latest = false) →
        latestVersion data = .ok first.version) := by
  refine ⟨?_, ?_⟩
  · intro pre r post hsplit hpre hr hv
    have hfind := @find_latest_of_split pre post r hpre hr
    simp [latestVersion, hsplit, hfind, truthy, hv]
  · intro hnone
    have hfind := find_latest_of_unmarked hnone
    simp only [latestVersion]
    rw [hfind]
    simp [readProp, hne]

/-- Witness of C1: in `sampleData` the marked release is the second one. -/
theorem latestVersion_first_marked_witness :
    latestVersion sampleData = .ok "1.4.0" :=
  (latestVersion_first_marked sampleData release130 [release140] rfl).1
    [release130] release140 [] rfl (by decide) rfl (by decide)

/-- The `||` of line 107 takes an empty version for a missing one: when the first marked
release has the version `""`, the version of the first release is used. -/
theorem latestVersion_of_empty_version (data : Manifest) (first : Release)
    (rest pre post : List Release) (r : Release)
    (hne : data.agent.releases = first :: rest) (hsplit : data.agent.releases = pre ++ r :: post)
    (hpre : ∀ x ∈ pre, x.latest = false) (hr : r.latest = true) (hv : r.version = "") :
    latestVersion data = .ok first.version := by
  have hfind : data.agent.releases.find? (fun r => r.latest) = some r :=
    hsplit ▸ @find_latest_of_split pre post r hpre hr
  simp only [latestVersion]
  rw [hfind]
  simp [truthy, hv, readProp, hne]

/-- C1 as stated fails: the first marked release of `noVersionData` has the version `""`,
and `latestVersion` is the version of the unmarked first release instead. -/
theorem latestVersion_first_marked_counterexample :
    noVersionData.agent.releases ≠ [] ∧
    noVersionData.agent.releases.find? (fun r => r.latest) = some releaseNoVersion ∧
    latestVersion noVersionData = .ok "1.3.0" ∧
    latestVersion noVersionData ≠ .ok releaseNoVersion.version := by
  decide

/-! ## Release cards (lines 16-56) -/

/-- The Download anchor of an asset row (line 39). -/
theorem download_anchor_in_row (release : Release) (asset : Asset) :
    Occurs ("<a href=\"" ++ ("downloads/agent/" ++ release.version ++ "/" ++ asset.name) ++
        "\" class=\"btn-download\">Download</a>") (assetRow release asset) := by
  show Occurs ("<a href=\"" ++ downloadUrl release asset ++
      "\" class=\"btn-download\">Download</a>") (assetRow release asset)
  unfold assetRow
  repeat (first
    | ((with_reducible refine occurs_around _ _ ?_ ?_) <;> decide)
    | (with_reducible refine occurs_append_left _ ?_))

/-- An asset row opens two anchors when the asset has a checksum and one otherwise,
provided the strings it interpolates open none. -/
theorem anchor_count_row (release : Release) (asset : Asset)
    (hv : TagFree release.version) (hn : TagFree asset.name) (ha : TagFree asset.arch) :
    countIn "<a " (assetRow release asset) = if asset.hasSha256 then 2 else 1 := by
  unfold TagFree at hv hn ha
  unfold countIn assetRow downloadUrl sha256Url
  rw [show "<a ".data = ['<', 'a', ' '] from rfl]
  cases asset.hasSha256
  · simp only [String.data_append, List.append_assoc, Bool.false_eq_true, if_false]
    simp (disch := first | assumption | decide) only
      [countStarts_append_clean, countStarts_append_literal]
    rfl
  · simp only [String.data_append, List.append_assoc, if_true]
    simp (disch := first | assumption | decide) only
      [countStarts_append_clean, countStarts_append_literal]
    rfl

/-- Without a checksum, and with strings that open no tag, the checksum anchor is not in
the row: the one anchor of the row is the Download anchor, which parts ways with the
checksum anchor right after the asset name. -/
theorem no_checksum_anchor (release : Release) (asset : Asset)
    (hv : TagFree release.version) (hn : TagFree asset.name) (ha : TagFree asset.arch)
    (hsha : asset.hasSha256 = false) :
    ¬ Occurs ("<a href=\"" ++
          ("downloads/agent/" ++ release.version ++ "/" ++ asset.name ++ ".sha256") ++
          "\" class=\"btn-hash\" title=\"Download SHA256\">SHA256</a>")
        (assetRow release asset) := by
  have hcount := anchor_count_row release asset hv hn ha
  rw [hsha] at hcount
  have hD := download_anchor_in_row release asset
  have eS : ("<a href=\"" ++
          ("downloads/agent/" ++ release.version ++ "/" ++ asset.name ++ ".sha256") ++
          "\" class=\"btn-hash\" title=\"Download SHA256\">SHA256</a>").data =
      ("<a href=\"downloads/agent/".data ++ release.version.data ++ ['/'] ++ asset.name.data) ++
        '.' :: "sha256\" class=\"btn-hash\" title=\"Download SHA256\">SHA256</a>".data := by
    simp [String.data_append]
  have eD : ("<a href=\"" ++ ("downloads/agent/" ++ release.version ++ "/" ++ asset.name) ++
        "\" class=\"btn-download\">Download</a>").data =
      ("<a href=\"downloads/agent/".data ++ release.version.data ++ ['/'] ++ asset.name.data) ++
        '"' :: " class=\"btn-download\">Download</a>".data := by
    simp [String.data_append]
  unfold Occurs at hD ⊢
  rw [eD] at hD
  rw [eS]
  unfold countIn at hcount
  rw [show "<a ".data = ['<', 'a', ' '] from rfl] at hcount
  exact not_occursIn_of_rival ['<', 'a', ' '] _ '.' '"' _ _ (by decide)
    ⟨"href=\"downloads/agent/".data ++ release.version.data ++ ['/'] ++ asset.name.data, by
      simp⟩ _ hcount hD

/-- C2: the row of an asset named `n` in a release of version `v` holds the Download
anchor whose `href` is exactly `downloads/agent/` + `v` + `/` + `n`, a relative link,
and `generateReleaseCard` renders that row for every asset of the release. -/
theorem download_link_shape (host : Host) (release : Release) (repo : String) (asset : Asset)
    (hmem : asset ∈ release.assets) :
    downloadUrl release asset = "downloads/agent/" ++ release.version ++ "/" ++ asset.name ∧
    Occurs ("<a href=\"" ++ ("downloads/agent/" ++ release.version ++ "/" ++ asset.name) ++
        "\" class=\"btn-download\">Download</a>") (assetRow release asset) ∧
    Occurs (assetRow release asset) (generateReleaseCard host release repo) := by
  refine ⟨rfl, download_anchor_in_row release asset, ?_⟩
  · have hrow : Occurs (assetRow release asset) (assetsHtml release) :=
      occurs_join_of_mem "" (List.mem_map_of_mem _ hmem)
    refine occurs_trans hrow ?_
    unfold generateReleaseCard
    refine occurs_append_left _ (occurs_append_left _ (occurs_append_left _ ?_))
    exact occurs_append_right _ (occurs_refl _)

/-- Witness of C2: version 1.4.0 and asset `agent-linux-amd64`. -/
theorem download_link_shape_witness :
    downloadUrl release140 amd64Asset = "downloads/agent/1.4.0/agent-linux-amd64" ∧
    Occurs "<a href=\"downloads/agent/1.4.0/agent-linux-amd64\" class=\"btn-download\">Download</a>"
      (assetRow release140 amd64Asset) ∧
    Occurs (assetRow release140 amd64Asset) (generateReleaseCard utcHost release140 "repo") :=
  download_link_shape utcHost release140 "repo" amd64Asset (by decide)


/-- C3, amended: the row is built from raw strings, so the claim holds of the text of the
row only when version, name and arch hold no `<`. For every release and asset: when
`hasSha256` is true, the anchor with `href` = `downloads/agent/` + `v` + `/` + `n` +
`.sha256` occurs in the row; when it is false, the checksum slot of the template is empty;
the Download anchor occurs in the row either way. For version, name and arch without `<`:
the checksum anchor occurs in the row if and only if `hasSha256` is true, and the row
opens two anchors if `hasSha256` and one, the Download anchor, otherwise. -/
theorem checksum_link_iff (release : Release) (asset : Asset) :
    sha256Url release asset =
      "downloads/agent/" ++ release.version ++ "/" ++ asset.name ++ ".sha256" ∧
    (asset.hasSha256 = true →
      Occurs ("<a href=\"" ++
          ("downloads/agent/" ++ release.version ++ "/" ++ asset.name ++ ".sha256") ++
          "\" class=\"btn-hash\" title=\"Download SHA256\">SHA256</a>")
        (assetRow release asset)) ∧
    (asset.hasSha256 = false →
      assetRow release asset =
        "\n" ++
        "                            <div class=\"asset-row\">\n" ++
        "                                <div class=\"asset-info\">\n" ++
        "                                    <span class=\"asset-name\">" ++ asset.name ++ "</span>\n" ++
        "                                    <span class=\"asset-arch\">" ++ asset.arch ++ "</span>\n" ++
        "                                </div>\n" ++
        "                                <div class=\"asset-actions\">\n" ++
        "                                    " ++ "\n" ++
        "                                    <a href=\"" ++
          ("downloads/agent/" ++ release.version ++ "/" ++ asset.name) ++
          "\" class=\"btn-download\">Download</a>\n" ++
        "                                </div>\n" ++
        "                            </div>") ∧
    (TagFree release.version → TagFree asset.name → TagFree asset.arch →
      (Occurs ("<a href=\"" ++
          ("downloads/agent/" ++ release.version ++ "/" ++ asset.name ++ ".sha256") ++
          "\" class=\"btn-hash\" title=\"Download SHA256\">SHA256</a>")
        (assetRow release asset) ↔ asset.hasSha256 = true) ∧
      countIn "<a " (assetRow release asset) = if asset.hasSha256 then 2 else 1) ∧
    Occurs ("<a href=\"" ++ ("downloads/agent/" ++ release.version ++ "/" ++ asset.name) ++
        "\" class=\"btn-download\">Download</a>") (assetRow release asset) := by
  have hpresent : asset.hasSha256 = true →
      Occurs ("<a href=\"" ++
          ("downloads/agent/" ++ release.version ++ "/" ++ asset.name ++ ".sha256") ++
          "\" class=\"btn-hash\" title=\"Download SHA256\">SHA256</a>")
        (assetRow release asset) := by
    intro h
    show Occurs ("<a href=\"" ++ sha256Url release asset ++
        "\" class=\"btn-hash\" title=\"Download SHA256\">SHA256</a>") (assetRow release asset)
    unfold assetRow
    rw [h]
    simp only [if_true]
    repeat (first
      | (with_reducible exact occurs_append_right _ (occurs_refl _))
      | (with_reducible refine occurs_append_left _ ?_))
  refine ⟨rfl, hpresent, ?_, ?_, download_anchor_in_row release asset⟩
  · intro h
    unfold assetRow
    rw [h]
    simp only [Bool.false_eq_true, if_false, String.append_empty]
    rfl
  · intro hv hn ha
    refine ⟨⟨?_, hpresent⟩, anchor_count_row release asset hv hn ha⟩
    intro hocc
    cases hsha : asset.hasSha256 with
    | true => rfl
    | false => exact absurd hocc (no_checksum_anchor release asset hv hn ha hsha)

/-- Witness of C3: the two assets of release 1.4.0, one with and one without checksum. -/
theorem checksum_link_iff_witness :
    countIn "<a " (assetRow release140 amd64Asset) = 2 ∧
    countIn "<a " (assetRow release140 arm64Asset) = 1 ∧
    Occurs "<a href=\"downloads/agent/1.4.0/agent-linux-amd64.sha256\" class=\"btn-hash\" title=\"Download SHA256\">SHA256</a>"
      (assetRow release140 amd64Asset) ∧
    ¬ Occurs "<a href=\"downloads/agent/1.4.0/agent-linux-arm64.sha256\" class=\"btn-hash\" title=\"Download SHA256\">SHA256</a>"
      (assetRow release140 arm64Asset) :=
  ⟨((checksum_link_iff release140 amd64Asset).2.2.2.1 (by decide) (by decide) (by decide)).2,
   ((checksum_link_iff release140 arm64Asset).2.2.2.1 (by decide) (by decide) (by decide)).2,
   (checksum_link_iff release140 amd64Asset).2.1 rfl,
   fun h => Bool.noConfusion
     (((checksum_link_iff release140 arm64Asset).2.2.2.1 (by decide) (by decide) (by decide)).1.mp h)⟩

set_option maxRecDepth 100000 in
/-- C3 as stated fails: `anchorArchAsset` has no checksum, yet its row holds the checksum
anchor of its own version and name, carried in by the `arch` string that line 35
interpolates as it is, and the row opens two anchors, not the Download anchor alone. -/
theorem checksum_link_iff_counterexample :
    anchorArchAsset.hasSha256 = false ∧
    sha256Url anchorArchRelease anchorArchAsset =
      "downloads/agent/1.4.0/agent-linux-arm64.sha256" ∧
    Occurs ("<a href=\"" ++ sha256Url anchorArchRelease anchorArchAsset ++
        "\" class=\"btn-hash\" title=\"Download SHA256\">SHA256</a>")
      (assetRow anchorArchRelease anchorArchAsset) ∧
    countIn "<a " (assetRow anchorArchRelease anchorArchAsset) = 2 ∧
    ¬ (Occurs ("<a href=\"" ++ sha256Url anchorArchRelease anchorArchAsset ++
          "\" class=\"btn-hash\" title=\"Download SHA256\">SHA256</a>")
        (assetRow anchorArchRelease anchorArchAsset) ↔ anchorArchAsset.hasSha256 = true) := by
  decide

/-- Pushing `f x` for every `x` in order appends the mapped list. -/
theorem foldl_push_eq_append_map {α : Type} (f : α → String) :
    ∀ (xs : List α) (init : List String),
      xs.foldl (fun acc x => acc ++ [f x]) init = init ++ xs.map f
  | [], init => by simp
  | x :: xs, init => by
    simp [List.foldl, foldl_push_eq_append_map f xs (init ++ [f x])]

/-- The `push` loop of lines 17-25 as a list expression. -/
theorem badges_eq (release : Release) :
    badges release =
      (if release.latest then ["<span class=\"release-badge latest\">Latest</span>"] else []) ++
      (release.badges.getD []).map
        (fun badge => "<span class=\"release-badge arm\">" ++ badge ++ "</span>") := by
  unfold badges
  cases release.badges with
  | none => simp
  | some labels => simp [foldl_push_eq_append_map]

/-- C10: the list `badges` of `generateReleaseCard` is the `Latest` badge first, if and
only if `release.latest`, followed by one span per entry of `release.badges` in the same
order; its length is (1 if latest else 0) + the number of labels, with no label badge
when `release.badges` is absent. The card prints the joined list on a line of its own,
and when no label holds a `<` that line opens exactly that many `<span ` elements. -/
theorem badge_list (host : Host) (release : Release) (repo : String) :
    badges release =
      (if release.latest then ["<span class=\"release-badge latest\">Latest</span>"] else []) ++
      (release.badges.getD []).map
        (fun badge => "<span class=\"release-badge arm\">" ++ badge ++ "</span>") ∧
    (badges release).length =
      (if release.latest then 1 else 0) + (release.badges.getD []).length ∧
    (release.badges = none →
      (badges release).length = if release.latest then 1 else 0) ∧
    Occurs ("                                " ++
        join "\n                                " (badges release) ++ "\n")
      (generateReleaseCard host release repo) ∧
    ((∀ label ∈ release.badges.getD [], TagFree label) →
      countIn "<span " (join "\n                                " (badges release)) =
        (if release.latest then 1 else 0) + (release.badges.getD []).length) := by
  have heq := badges_eq release
  have hlen : (badges release).length =
      (if release.latest then 1 else 0) + (release.badges.getD []).length := by
    rw [heq]
    cases release.latest <;> simp [Nat.add_comm]
  refine ⟨heq, hlen, ?_, ?_, ?_⟩
  · intro hnone
    rw [hlen, hnone]
    simp
  · unfold generateReleaseCard
    repeat (first
      | ((with_reducible refine occurs_around _ _ ?_ ?_) <;> decide)
      | (with_reducible refine occurs_append_left _ ?_))
  · intro hfree
    unfold countIn
    rw [show "<span ".data = ['<', 's', 'p', 'a', 'n', ' '] from rfl]
    rw [countStarts_join _ _ (by decide)]
    · rw [heq]
      have hmap : ∀ (labels : List String), (∀ label ∈ labels, TagFree label) →
          ((labels.map (fun badge => "<span class=\"release-badge arm\">" ++ badge ++ "</span>")).map
            (fun x => countStarts ['<', 's', 'p', 'a', 'n', ' '] x.data)).sum = labels.length := by
        intro labels
        induction labels with
        | nil => intro _; rfl
        | cons l ls ih =>
          intro h
          have hl : '<' ∉ l.data := h l (List.mem_cons_self _ _)
          have ih2 := ih (fun x hx => h x (List.mem_cons_of_mem _ hx))
          simp only [List.map_cons, List.sum_cons, List.length_cons, ih2]
          simp only [String.data_append, List.append_assoc]
          simp (disch := first | assumption | decide) only
            [countStarts_append_clean, countStarts_append_literal]
          have e1 : countStarts ['<', 's', 'p', 'a', 'n', ' '] "<span class=\"release-badge arm\">".data = 1 := by decide
          have e2 : countStarts ['<', 's', 'p', 'a', 'n', ' '] "</span>".data = 0 := by decide
          rw [e1, e2]
          omega
      rw [List.map_append, List.sum_append, hmap _ hfree]
      cases release.latest
      · simp
      · simp only [if_true, List.map_cons, List.map_nil, List.sum_cons, List.sum_nil]
        have e3 : countStarts ['<', 's', 'p', 'a', 'n', ' '] "<span class=\"release-badge latest\">Latest</span>".data = 1 := by decide
        rw [e3]
        omega
    · intro x hx
      rw [heq] at hx
      rcases List.mem_append.mp hx with h1 | h2
      · cases hl : release.latest
        · simp [hl] at h1
        · simp [hl] at h1
          subst h1
          decide
      · obtain ⟨label, hlabel, rfl⟩ := List.mem_map.mp h2
        have hl : '<' ∉ label.data := hfree label hlabel
        simp only [String.data_append]
        exact not_mem_drop_append 5 _ "</span>".data (by decide) (by decide)
/-- Witness of C10: release 1.4.0 has the `Latest` badge and one label, release 1.3.0
has no `badges` key and is not marked. -/
theorem badge_list_witness :
    (badges release140).length = 2 ∧
    (badges release130).length = 0 ∧
    countIn "<span " (join "\n                                " (badges release140)) = 2 :=
  ⟨(badge_list utcHost release140 "repo").2.1,
   (badge_list utcHost release130 "repo").2.2.1 rfl,
   (badge_list utcHost release140 "repo").2.2.2.2 (by decide)⟩

/-! ## Script cards (lines 58-105) -/

/-- The base URL of a manifest that has a domain (line 9). -/
theorem baseUrl_some (domain : String) : baseUrl (some domain) = "https://" ++ domain := rfl

/-- The two leading literals of the usage command, read as one. -/
theorem curl_prefix (domain : String) :
    "curl -sSL " ++ ("https://" ++ domain) = "curl -sSL https://" ++ domain := by
  rw [← String.append_assoc]
  rfl

/-- C4: for a manifest domain `d` and a script file `f`, the usage command of
`generateScriptCard` is exactly `curl -sSL https://d/f | bash` for the kind `stack` and
`curl -sSL https://d/f | sudo bash -s -- -p postgres` for the kind `agent`, and the card
prints it in its `code` element; `dl.example.com` and `install-agent.sh` give
`curl -sSL https://dl.example.com/install-agent.sh | sudo bash -s -- -p postgres`. -/
theorem usage_command (domain : String) (script : Script) :
    usageCmd (baseUrl (some domain)) script "stack" =
      "curl -sSL https://" ++ domain ++ "/" ++ script.file ++ " | bash" ∧
    usageCmd (baseUrl (some domain)) script "agent" =
      "curl -sSL https://" ++ domain ++ "/" ++ script.file ++ " | sudo bash -s -- -p postgres" ∧
    (∀ type : String,
      Occurs ("<code>" ++ usageCmd (baseUrl (some domain)) script type ++ "</code>")
        (generateScriptCard (baseUrl (some domain)) script type)) ∧
    usageCmd (baseUrl (some "dl.example.com")) agentScript "agent" =
      "curl -sSL https://dl.example.com/install-agent.sh | sudo bash -s -- -p postgres" := by
  refine ⟨?_, ?_, ?_, by decide⟩
  · simp only [usageCmd, baseUrl_some, if_true, curl_prefix]
  · have hne : ¬ ("agent" = "stack") := by decide
    simp only [usageCmd, baseUrl_some, hne, if_false, curl_prefix]
  · intro type
    unfold generateScriptCard
    repeat (first
      | ((with_reducible refine occurs_around _ _ ?_ ?_) <;> decide)
      | (with_reducible refine occurs_append_left _ ?_))

/-- The block of a feature list (lines 65-69) opens one heading and one item per
feature, when no feature string holds a `<`. -/
theorem count_features_block (features : List String) (hfree : ∀ f ∈ features, TagFree f) :
    countIn "<h4>" ("\n" ++
        "                            <h4>Features:</h4>\n" ++
        "                            <ul>\n" ++
        "                                " ++
          join "\n                                " (features.map (fun f => "<li>" ++ f ++ "</li>")) ++
          "\n" ++
        "                            </ul>") = 1 ∧
    countIn "<li>" ("\n" ++
        "                            <h4>Features:</h4>\n" ++
        "                            <ul>\n" ++
        "                                " ++
          join "\n                                " (features.map (fun f => "<li>" ++ f ++ "</li>")) ++
          "\n" ++
        "                            </ul>") = features.length := by
  constructor
  ·
    unfold countIn
    simp only [String.data_append, List.append_assoc]
    simp (disch := first | assumption | decide) only
      [countStarts_append_clean, countStarts_append_literal]
    rw [List.singleton_append, countStarts_append_of_next_not_mem _ _ (by decide),
      countStarts_join _ _ (by decide)]
    · rw [sum_count_map _ _ 0]
      · simp [countStarts, List.isPrefixOf]
      · intro f hmem
        have hf : '<' ∉ f.data := hfree f hmem
        simp only [String.data_append, List.append_assoc]
        simp (disch := first | assumption | decide) only
          [countStarts_append_clean, countStarts_append_literal]
        rfl
    · intro x hx
      obtain ⟨f, _, rfl⟩ := List.mem_map.mp hx
      simp only [String.data_append]
      exact not_mem_drop_append 3 _ _ (by decide) (by decide)
  ·
    unfold countIn
    simp only [String.data_append, List.append_assoc]
    simp (disch := first | assumption | decide) only
      [countStarts_append_clean, countStarts_append_literal]
    rw [List.singleton_append, countStarts_append_of_next_not_mem _ _ (by decide),
      countStarts_join _ _ (by decide)]
    · rw [sum_count_map _ _ 1]
      · simp [countStarts, List.isPrefixOf]
      · intro f hmem
        have hf : '<' ∉ f.data := hfree f hmem
        simp only [String.data_append, List.append_assoc]
        simp (disch := first | assumption | decide) only
          [countStarts_append_clean, countStarts_append_literal]
        rfl
    · intro x hx
      obtain ⟨f, _, rfl⟩ := List.mem_map.mp hx
      simp only [String.data_append]
      exact not_mem_drop_append 3 _ _ (by decide) (by decide)

/-- The block of an option list (lines 71-75) opens one heading and one item per
option, when no flag and no description holds a `<`. -/
theorem count_options_block (options : List ScriptOption)
    (hfree : ∀ o ∈ options, TagFree o.flag ∧ TagFree o.desc) :
    countIn "<h4>" ("\n" ++
        "                            <h4>Options:</h4>\n" ++
        "                            <ul>\n" ++
        "                                " ++
          join "\n                                "
            (options.map (fun o => "<li><code>" ++ o.flag ++ "</code> - " ++ o.desc ++ "</li>")) ++
          "\n" ++
        "                            </ul>") = 1 ∧
    countIn "<li>" ("\n" ++
        "                            <h4>Options:</h4>\n" ++
        "                            <ul>\n" ++
        "                                " ++
          join "\n                                "
            (options.map (fun o => "<li><code>" ++ o.flag ++ "</code> - " ++ o.desc ++ "</li>")) ++
          "\n" ++
        "                            </ul>") = options.length := by
  constructor
  ·
    unfold countIn
    simp only [String.data_append, List.append_assoc]
    simp (disch := first | assumption | decide) only
      [countStarts_append_clean, countStarts_append_literal]
    rw [List.singleton_append, countStarts_append_of_next_not_mem _ _ (by decide),
      countStarts_join _ _ (by decide)]
    · rw [sum_count_map _ _ 0]
      · simp [countStarts, List.isPrefixOf]
      · intro o hmem
        have hflag : '<' ∉ o.flag.data := (hfree o hmem).1
        have hdesc : '<' ∉ o.desc.data := (hfree o hmem).2
        simp only [String.data_append, List.append_assoc]
        simp (disch := first | assumption | decide) only
          [countStarts_append_clean, countStarts_append_literal]
        rfl
    · intro x hx
      obtain ⟨o, _, rfl⟩ := List.mem_map.mp hx
      simp only [String.data_append]
      exact not_mem_drop_append 3 _ _ (by decide) (by decide)
  ·
    unfold countIn
    simp only [String.data_append, List.append_assoc]
    simp (disch := first | assumption | decide) only
      [countStarts_append_clean, countStarts_append_literal]
    rw [List.singleton_append, countStarts_append_of_next_not_mem _ _ (by decide),
      countStarts_join _ _ (by decide)]
    · rw [sum_count_map _ _ 1]
      · simp [countStarts, List.isPrefixOf]
      · intro o hmem
        have hflag : '<' ∉ o.flag.data := (hfree o hmem).1
        have hdesc : '<' ∉ o.desc.data := (hfree o hmem).2
        simp only [String.data_append, List.append_assoc]
        simp (disch := first | assumption | decide) only
          [countStarts_append_clean, countStarts_append_literal]
        rfl
    · intro x hx
      obtain ⟨o, _, rfl⟩ := List.mem_map.mp hx
      simp only [String.data_append]
      exact not_mem_drop_append 3 _ _ (by decide) (by decide)

/-- A feature block has the `Features:` heading and, when no feature opens a tag, no
`Options:` heading. -/
theorem feature_block_headings (script : Script) (features : List String)
    (hf : script.features = some features) (hfree : ∀ f ∈ features, TagFree f) :
    Occurs "<h4>Features:</h4>" (optionsHtml script) ∧
    ¬ Occurs "<h4>Options:</h4>" (optionsHtml script) := by
  have hcount := (count_features_block features hfree).1
  have hhead : Occurs "<h4>Features:</h4>" (optionsHtml script) := by
    unfold optionsHtml
    rw [hf]
    repeat (first
      | (with_reducible exact occurs_append_right _ (by decide))
      | (with_reducible refine occurs_append_left _ ?_))
  refine ⟨hhead, ?_⟩
  unfold optionsHtml at hhead ⊢
  rw [hf] at hhead ⊢
  unfold Occurs at hhead ⊢
  unfold countIn at hcount
  rw [show "<h4>Features:</h4>".data = "<h4>".data ++ 'F' :: "eatures:</h4>".data from rfl]
    at hhead
  rw [show "<h4>Options:</h4>".data = "<h4>".data ++ 'O' :: "ptions:</h4>".data from rfl]
  exact not_occursIn_of_rival "<h4>".data "<h4>".data 'O' 'F' _ _ (by decide)
    (List.prefix_refl _) _ hcount hhead

/-- An option block has the `Options:` heading and, when no flag or description opens a
tag, no `Features:` heading. -/
theorem option_block_headings (script : Script) (options : List ScriptOption)
    (hf : script.features = none) (ho : script.options = some options)
    (hfree : ∀ o ∈ options, TagFree o.flag ∧ TagFree o.desc) :
    Occurs "<h4>Options:</h4>" (optionsHtml script) ∧
    ¬ Occurs "<h4>Features:</h4>" (optionsHtml script) := by
  have hcount := (count_options_block options hfree).1
  have hhead : Occurs "<h4>Options:</h4>" (optionsHtml script) := by
    unfold optionsHtml
    rw [hf, ho]
    repeat (first
      | (with_reducible exact occurs_append_right _ (by decide))
      | (with_reducible refine occurs_append_left _ ?_))
  refine ⟨hhead, ?_⟩
  unfold optionsHtml at hhead ⊢
  rw [hf, ho] at hhead ⊢
  unfold Occurs at hhead ⊢
  unfold countIn at hcount
  rw [show "<h4>Options:</h4>".data = "<h4>".data ++ 'O' :: "ptions:</h4>".data from rfl]
    at hhead
  rw [show "<h4>Features:</h4>".data = "<h4>".data ++ 'F' :: "eatures:</h4>".data from rfl]
  exact not_occursIn_of_rival "<h4>".data "<h4>".data 'F' 'O' _ _ (by decide)
    (List.prefix_refl _) _ hcount hhead

/-- C5: the options block of a script card is decided by a three-way case. With
`features` present (also when `options` is present as well) it is the `Features:`
heading and one `<li>feature</li>` per feature in order; otherwise with `options`
present it is the `Options:` heading and one `<li><code>flag</code> - desc</li>` per
option in order; otherwise it is empty. The card prints the block inside its
`script-options` element. Read in the text of the block, for strings that open no tag
of their own: a feature block has the `Features:` heading and no `Options:` heading, an
option block the `Options:` heading and no `Features:` heading, and either has one `<li>`
per entry. -/
theorem options_block (baseUrl : String) (script : Script) (type : String) :
    (∀ features, script.features = some features →
      optionsHtml script =
        "\n" ++
        "                            <h4>Features:</h4>\n" ++
        "                            <ul>\n" ++
        "                                " ++
          join "\n                                " (features.map (fun f => "<li>" ++ f ++ "</li>")) ++
          "\n" ++
        "                            </ul>" ∧
      ((∀ f ∈ features, TagFree f) →
        Occurs "<h4>Features:</h4>" (optionsHtml script) ∧
        ¬ Occurs "<h4>Options:</h4>" (optionsHtml script) ∧
        countIn "<li>" (optionsHtml script) = features.length)) ∧
    (script.features = none → ∀ options, script.options = some options →
      optionsHtml script =
        "\n" ++
        "                            <h4>Options:</h4>\n" ++
        "                            <ul>\n" ++
        "                                " ++
          join "\n                                "
            (options.map (fun o => "<li><code>" ++ o.flag ++ "</code> - " ++ o.desc ++ "</li>")) ++
          "\n" ++
        "                            </ul>" ∧
      ((∀ o ∈ options, TagFree o.flag ∧ TagFree o.desc) →
        Occurs "<h4>Options:</h4>" (optionsHtml script) ∧
        ¬ Occurs "<h4>Features:</h4>" (optionsHtml script) ∧
        countIn "<li>" (optionsHtml script) = options.length)) ∧
    (script.features = none → script.options = none → optionsHtml script = "") ∧
    Occurs ("<div class=\"script-options\">" ++ optionsHtml script ++ "\n")
      (generateScriptCard baseUrl script type) := by
  refine ⟨?_, ?_, ?_, ?_⟩
  · intro features hf
    constructor
    · unfold optionsHtml
      rw [hf]
    · intro hfree
      have hheads := feature_block_headings script features hf hfree
      have hcount := (count_features_block features hfree).2
      refine ⟨hheads.1, hheads.2, ?_⟩
      unfold optionsHtml
      rw [hf]
      exact hcount
  · intro hf options ho
    constructor
    · unfold optionsHtml
      rw [hf, ho]
    · intro hfree
      have hheads := option_block_headings script options hf ho hfree
      have hcount := (count_options_block options hfree).2
      refine ⟨hheads.1, hheads.2, ?_⟩
      unfold optionsHtml
      rw [hf, ho]
      exact hcount
  · intro hf ho
    unfold optionsHtml
    rw [hf, ho]
  · unfold generateScriptCard
    repeat (first
      | ((with_reducible refine occurs_around _ _ ?_ ?_) <;> decide)
      | (with_reducible refine occurs_append_left _ ?_))

set_option maxRecDepth 8000 in
/-- Witness of C5: the feature list `A`, `B`; the option `-p`; a descriptor with both
collections, which renders its features; a descriptor with neither. -/
theorem options_block_witness :
    (Occurs "<h4>Features:</h4>" (optionsHtml stackScript) ∧
      ¬ Occurs "<h4>Options:</h4>" (optionsHtml stackScript) ∧
      countIn "<li>" (optionsHtml stackScript) = 2) ∧
    (Occurs "<h4>Options:</h4>" (optionsHtml agentScript) ∧
      ¬ Occurs "<h4>Features:</h4>" (optionsHtml agentScript) ∧
      countIn "<li>" (optionsHtml agentScript) = 1) ∧
    Occurs "<li><code>-p</code> - platform</li>" (optionsHtml agentScript) ∧
    (Occurs "<h4>Features:</h4>" (optionsHtml bothScript) ∧
      ¬ Occurs "<h4>Options:</h4>" (optionsHtml bothScript) ∧
      countIn "<li>" (optionsHtml bothScript) = 2) ∧
    optionsHtml { stackScript with features := none } = "" :=
  ⟨((options_block "" stackScript "stack").1 ["A", "B"] rfl).2 (by decide),
   ((options_block "" agentScript "agent").2.1 rfl _ rfl).2 (by decide),
   by decide,
   ((options_block "" bothScript "stack").1 ["A", "B"] rfl).2 (by decide),
   (options_block "" { stackScript with features := none } "stack").2.2.1 rfl rfl⟩

/-! ## The run (lines 7-9, 107-228) -/

/-- The message of the `TypeError` thrown when `key` is read from `undefined`. -/
theorem readProp_none {α β : Type} (key : String) (f : α → β) :
    readProp (none : Option α) key f =
      .error (.typeError ("Cannot read properties of undefined (reading \x27" ++ key ++ "\x27)")) :=
  rfl

/-- Line 107 throws exactly when `agent.releases` is empty: on a non-empty sequence it
yields a version. -/
theorem latestVersion_ok_of_ne_nil (data : Manifest) (h : data.agent.releases ≠ []) :
    ∃ v, latestVersion data = .ok v := by
  unfold latestVersion
  cases hrel : data.agent.releases with
  | nil => exact absurd hrel h
  | cons first rest =>
    cases hfind : Option.map (fun r : Release => r.version)
        (List.find? (fun r => r.latest) (first :: rest)) with
    | none => exact ⟨first.version, by simp [readProp]⟩
    | some v =>
      by_cases hv : truthy v = true
      · exact ⟨v, by simp [hv]⟩
      · exact ⟨first.version, by simp [hv, readProp]⟩

/-- On an empty `agent.releases`, line 107 reads `version` of `undefined`. -/
theorem latestVersion_nil (data : Manifest) (h : data.agent.releases = []) :
    latestVersion data =
      .error (.typeError "Cannot read properties of undefined (reading \x27version\x27)") := by
  unfold latestVersion
  rw [h]
  rfl

/-- The only exception of line 107 is a `TypeError`. -/
theorem latestVersion_error (data : Manifest) (e : JsError)
    (h : latestVersion data = .error e) : ∃ msg, e = .typeError msg := by
  by_cases hrel : data.agent.releases = []
  · rw [latestVersion_nil data hrel] at h
    injection h with h
    exact ⟨_, h.symm⟩
  · obtain ⟨v, hv⟩ := latestVersion_ok_of_ne_nil data hrel
    rw [hv] at h
    cases h

/-- With both script descriptors present the page template is filled in. -/
theorem html_ok (host : Host) (data : Manifest) (s a : Script)
    (hs : data.scripts.stack = some s) (ha : data.scripts.agent = some a) :
    html host data = .ok
      (page (baseUrl data.domain) s.file a.file
        (join "\n" (data.agent.releases.map (fun r => generateReleaseCard host r data.agent.repo)))
        (generateScriptCard (baseUrl data.domain) s "stack")
        (generateScriptCard (baseUrl data.domain) a "agent")) := by
  unfold html
  rw [hs, ha]
  rfl

/-- With a script descriptor missing, the template throws at line 137 or 153. -/
theorem html_error_of_missing (host : Host) (data : Manifest)
    (h : data.scripts.agent = none ∨ data.scripts.stack = none) :
    html host data =
      .error (.typeError "Cannot read properties of undefined (reading \x27file\x27)") := by
  unfold html
  cases hs : data.scripts.stack with
  | none => rfl
  | some s =>
    rcases h with h | h
    · rw [h]
      rfl
    · rw [hs] at h
      cases h

/-- C7: when `scripts.agent` is missing, and likewise when `scripts.stack` is missing,
the run ends with an uncaught `TypeError` before line 227: nothing is handed to
`writeFileSync` and nothing is logged. -/
theorem missing_script_aborts (host : Host) (data : Manifest)
    (h : data.scripts.agent = none ∨ data.scripts.stack = none) :
    (run host data).written = none ∧ (run host data).stdout = [] ∧
    ∃ msg, (run host data).error = some (.typeError msg) := by
  unfold run
  cases hv : latestVersion data with
  | error e =>
    obtain ⟨msg, rfl⟩ := latestVersion_error data e hv
    exact ⟨rfl, rfl, msg, rfl⟩
  | ok v =>
    rw [html_error_of_missing host data h]
    exact ⟨rfl, rfl, _, rfl⟩

/-- Witness of C7: the sample manifest without `scripts.agent`, and without
`scripts.stack`. -/
theorem missing_script_aborts_witness :
    ((run utcHost noAgentScriptData).written = none ∧
      (run utcHost noAgentScriptData).stdout = [] ∧
      ∃ msg, (run utcHost noAgentScriptData).error = some (.typeError msg)) ∧
    ((run utcHost noStackScriptData).written = none ∧
      (run utcHost noStackScriptData).stdout = [] ∧
      ∃ msg, (run utcHost noStackScriptData).error = some (.typeError msg)) :=
  ⟨missing_script_aborts utcHost noAgentScriptData (Or.inl rfl),
   missing_script_aborts utcHost noStackScriptData (Or.inr rfl)⟩

/-- C9: when `agent.releases` is empty, line 107 reads `version` of `undefined`: the run
ends with that `TypeError`, and nothing is handed to `writeFileSync`. -/
theorem empty_releases_abort (host : Host) (data : Manifest)
    (h : data.agent.releases = []) :
    (run host data).written = none ∧ (run host data).stdout = [] ∧
    (run host data).error =
      some (.typeError "Cannot read properties of undefined (reading \x27version\x27)") := by
  unfold run
  rw [latestVersion_nil data h]
  exact ⟨rfl, rfl, rfl⟩

/-- Witness of C9: the sample manifest with an empty `agent.releases`. -/
theorem empty_releases_abort_witness :
    (run utcHost noReleasesData).written = none ∧ (run utcHost noReleasesData).stdout = [] ∧
    (run utcHost noReleasesData).error =
      some (.typeError "Cannot read properties of undefined (reading \x27version\x27)") :=
  empty_releases_abort utcHost noReleasesData rfl

/-- What a run does on a manifest with both scripts and a release. -/
theorem run_of_valid (host : Host) (data : Manifest) (s a : Script)
    (hs : data.scripts.stack = some s) (ha : data.scripts.agent = some a)
    (hrel : data.agent.releases ≠ []) :
    (run host data).written = some
      (page (baseUrl data.domain) s.file a.file
        (join "\n" (data.agent.releases.map (fun r => generateReleaseCard host r data.agent.repo)))
        (generateScriptCard (baseUrl data.domain) s "stack")
        (generateScriptCard (baseUrl data.domain) a "agent")) ∧
    (run host data).error = (if host.writeFails then some .ioError else none) := by
  obtain ⟨v, hv⟩ := latestVersion_ok_of_ne_nil data hrel
  unfold run
  rw [hv]
  simp only [html_ok host data s a hs ha]
  cases host.writeFails <;> exact ⟨rfl, rfl⟩

set_option maxRecDepth 20000 in
/-- The stack command of the Quick Install section starts with the base URL (line 137). -/
theorem occurs_stackCmd_page (b sf af rc sc ac : String) :
    Occurs ("<code id=\"stack-cmd\">curl -sSL " ++ b ++ "/") (page b sf af rc sc ac) := by
  unfold page
  repeat (first
    | ((with_reducible refine occurs_around _ _ ?_ ?_) <;> decide)
    | (with_reducible refine occurs_append_left _ ?_))

/-- C8 (as amended): a missing `domain` is no error. For a manifest without `domain` that
has both script descriptors and a release, the base URL is the string
`https://undefined`, the page is generated with it and handed to `writeFileSync`, and
unless the write itself fails the run ends without error; the run is the one of the
same manifest with the domain `undefined`. -/
theorem missing_domain_generates (host : Host) (data : Manifest) (s a : Script)
    (hd : data.domain = none)
    (hs : data.scripts.stack = some s) (ha : data.scripts.agent = some a)
    (hrel : data.agent.releases ≠ []) :
    baseUrl data.domain = "https://undefined" ∧
    (run host data).written = some
      (page "https://undefined" s.file a.file
        (join "\n" (data.agent.releases.map (fun r => generateReleaseCard host r data.agent.repo)))
        (generateScriptCard "https://undefined" s "stack")
        (generateScriptCard "https://undefined" a "agent")) ∧
    (host.writeFails = false → (run host data).error = none ∧
      (run host data).stdout = ["Generated index.html successfully"]) ∧
    Occurs ("<code id=\"stack-cmd\">curl -sSL " ++ "https://undefined" ++ "/")
      (writtenPage host data) ∧
    run host data = run host { data with domain := some "undefined" } := by
  have hb : baseUrl data.domain = "https://undefined" := by
    rw [hd]
    decide
  have hrun := run_of_valid host data s a hs ha hrel
  rw [hb] at hrun
  refine ⟨hb, hrun.1, ?_, ?_, ?_⟩
  · intro hw
    obtain ⟨v, hv⟩ := latestVersion_ok_of_ne_nil data hrel
    unfold run
    rw [hv]
    simp only [html_ok host data s a hs ha, hw]
    exact ⟨rfl, rfl⟩
  · unfold writtenPage
    rw [hrun.1]
    exact occurs_stackCmd_page _ _ _ _ _ _
  · cases data with
    | mk domain agent scripts =>
      simp only at hd
      subst hd
      rfl


/-- Witness of C8 (as amended): the sample manifest without `domain`. -/
theorem missing_domain_generates_witness :
    baseUrl noDomainData.domain = "https://undefined" ∧
    (run utcHost noDomainData).error = none ∧
    (run utcHost noDomainData).stdout = ["Generated index.html successfully"] ∧
    Occurs "<code id=\"stack-cmd\">curl -sSL https://undefined/" (writtenPage utcHost noDomainData) :=
  have h := missing_domain_generates utcHost noDomainData stackScript agentScript rfl rfl rfl
    (by decide)
  ⟨h.1, (h.2.2.1 rfl).1, (h.2.2.1 rfl).2, h.2.2.2.1⟩

/-- C8 as stated fails: the sample manifest without `domain` is loaded, and the run ends
without error after handing a page to `writeFileSync` and logging success. -/
theorem missing_domain_counterexample :
    noDomainData.domain = none ∧
    (run utcHost noDomainData).error = none ∧
    (run utcHost noDomainData).written.isSome = true ∧
    (run utcHost noDomainData).stdout = ["Generated index.html successfully"] := by
  have h := run_of_valid utcHost noDomainData stackScript agentScript rfl rfl (by decide)
  refine ⟨rfl, h.2, ?_, ?_⟩
  · rw [h.1]
    rfl
  · obtain ⟨v, hv⟩ := latestVersion_ok_of_ne_nil noDomainData (by decide)
    unfold run
    rw [hv]
    simp only [html_ok utcHost noDomainData stackScript agentScript rfl rfl]
    rfl

/-! ## Interpolation of manifest strings -/

/-- The joined release cards are a piece of the page (line 176). -/
theorem occurs_releaseCards_page (b sf af rc sc ac : String) :
    Occurs rc (page b sf af rc sc ac) := by
  unfold page
  repeat (first
    | (with_reducible exact occurs_append_right _ (occurs_refl _))
    | (with_reducible refine occurs_append_left _ ?_))

/-- The stack script card is a piece of the page (line 183). -/
theorem occurs_stackCard_page (b sf af rc sc ac : String) :
    Occurs sc (page b sf af rc sc ac) := by
  unfold page
  repeat (first
    | (with_reducible exact occurs_append_right _ (occurs_refl _))
    | (with_reducible refine occurs_append_left _ ?_))

/-- The agent script card is a piece of the page (line 184). -/
theorem occurs_agentCard_page (b sf af rc sc ac : String) :
    Occurs ac (page b sf af rc sc ac) := by
  unfold page
  repeat (first
    | (with_reducible exact occurs_append_right _ (occurs_refl _))
    | (with_reducible refine occurs_append_left _ ?_))

/-- A run that reaches `writeFileSync` had both script descriptors and hands over the
filled-in template. -/
theorem run_written_inv (host : Host) (data : Manifest) (out : String)
    (h : (run host data).written = some out) :
    ∃ s a, data.scripts.stack = some s ∧ data.scripts.agent = some a ∧
      out = page (baseUrl data.domain) s.file a.file
        (join "\n" (data.agent.releases.map (fun r => generateReleaseCard host r data.agent.repo)))
        (generateScriptCard (baseUrl data.domain) s "stack")
        (generateScriptCard (baseUrl data.domain) a "agent") := by
  unfold run at h
  cases hv : latestVersion data with
  | error e =>
    rw [hv] at h
    cases h
  | ok v =>
    rw [hv] at h
    cases hs : data.scripts.stack with
    | none =>
      rw [html_error_of_missing host data (Or.inr hs)] at h
      cases h
    | some s =>
      cases ha : data.scripts.agent with
      | none =>
        rw [html_error_of_missing host data (Or.inl ha)] at h
        cases h
      | some a =>
        rw [html_ok host data s a hs ha] at h
        refine ⟨s, a, rfl, rfl, ?_⟩
        cases hw : host.writeFails <;> rw [hw] at h <;> simp at h <;> exact h.symm

/-- The strings of a release occur unchanged in its card. -/
theorem release_fields_in_card (host : Host) (r : Release) (repo : String) :
    Occurs ("<span class=\"release-version\">" ++ r.version ++ "</span>")
      (generateReleaseCard host r repo) ∧
    (∀ label ∈ r.badges.getD [],
      Occurs ("<span class=\"release-badge arm\">" ++ label ++ "</span>")
        (generateReleaseCard host r repo)) ∧
    (∀ a ∈ r.assets,
      Occurs ("<span class=\"asset-name\">" ++ a.name ++ "</span>")
        (generateReleaseCard host r repo) ∧
      Occurs ("<span class=\"asset-arch\">" ++ a.arch ++ "</span>")
        (generateReleaseCard host r repo)) := by
  refine ⟨?_, ?_, ?_⟩
  · unfold generateReleaseCard
    repeat (first
      | ((with_reducible refine occurs_around _ _ ?_ ?_) <;> decide)
      | (with_reducible refine occurs_append_left _ ?_))
  · intro label hlabel
    have hmem : ("<span class=\"release-badge arm\">" ++ label ++ "</span>") ∈ badges r := by
      rw [badges_eq]
      exact List.mem_append_right _ (List.mem_map_of_mem _ hlabel)
    refine occurs_trans (occurs_join_of_mem "\n                                " hmem) ?_
    unfold generateReleaseCard
    repeat (first
      | (with_reducible exact occurs_append_right _ (occurs_refl _))
      | (with_reducible refine occurs_append_left _ ?_))
  · intro a ha
    have hrows : Occurs (assetRow r a) (assetsHtml r) :=
      occurs_join_of_mem "" (List.mem_map_of_mem (assetRow r) ha)
    have hrow : Occurs (assetRow r a) (generateReleaseCard host r repo) := by
      refine occurs_trans hrows ?_
      unfold generateReleaseCard
      repeat (first
        | (with_reducible exact occurs_append_right _ (occurs_refl _))
        | (with_reducible refine occurs_append_left _ ?_))
    constructor
    · refine occurs_trans ?_ hrow
      unfold assetRow
      repeat (first
        | ((with_reducible refine occurs_around _ _ ?_ ?_) <;> decide)
        | (with_reducible refine occurs_append_left _ ?_))
    · refine occurs_trans ?_ hrow
      unfold assetRow
      repeat (first
        | ((with_reducible refine occurs_around _ _ ?_ ?_) <;> decide)
        | (with_reducible refine occurs_append_left _ ?_))

/-- The strings of a script descriptor occur unchanged in its card. -/
theorem script_fields_in_card (b : String) (s : Script) (type : String) :
    Occurs ("<h3>" ++ s.name ++ "</h3>") (generateScriptCard b s type) ∧
    Occurs ("<p>" ++ s.description ++ "</p>") (generateScriptCard b s type) ∧
    Occurs ("<a href=\"" ++ s.file ++ "\" download") (generateScriptCard b s type) ∧
    Occurs (">Download " ++ s.file ++ "</a>") (generateScriptCard b s type) ∧
    (∀ f ∈ s.features.getD [], Occurs ("<li>" ++ f ++ "</li>") (generateScriptCard b s type)) ∧
    (s.features = none → ∀ o ∈ s.options.getD [],
      Occurs ("<li><code>" ++ o.flag ++ "</code> - " ++ o.desc ++ "</li>")
        (generateScriptCard b s type)) := by
  have hopt : Occurs (optionsHtml s) (generateScriptCard b s type) := by
    unfold generateScriptCard
    repeat (first
      | (with_reducible exact occurs_append_right _ (occurs_refl _))
      | (with_reducible refine occurs_append_left _ ?_))
  refine ⟨?_, ?_, ?_, ?_, ?_, ?_⟩
  · unfold generateScriptCard
    repeat (first
      | ((with_reducible refine occurs_around _ _ ?_ ?_) <;> decide)
      | (with_reducible refine occurs_append_left _ ?_))
  · unfold generateScriptCard
    repeat (first
      | ((with_reducible refine occurs_around _ _ ?_ ?_) <;> decide)
      | (with_reducible refine occurs_append_left _ ?_))
  · unfold generateScriptCard
    repeat (first
      | ((with_reducible refine occurs_around _ _ ?_ ?_) <;> decide)
      | (with_reducible refine occurs_append_left _ ?_))
  · unfold generateScriptCard
    repeat (first
      | ((with_reducible refine occurs_around _ _ ?_ ?_) <;> decide)
      | (with_reducible refine occurs_append_left _ ?_))
  · intro f hf
    refine occurs_trans ?_ hopt
    cases hfs : s.features with
    | none => simp [hfs] at hf
    | some features =>
      rw [hfs] at hf
      unfold optionsHtml
      rw [hfs]
      refine occurs_append_left _ (occurs_append_left _ (occurs_append_right _ ?_))
      exact occurs_join_of_mem _ (List.mem_map_of_mem _ hf)
  · intro hnone o ho
    refine occurs_trans ?_ hopt
    cases hos : s.options with
    | none => simp [hos] at ho
    | some options =>
      rw [hos] at ho
      unfold optionsHtml
      rw [hnone, hos]
      refine occurs_append_left _ (occurs_append_left _ (occurs_append_right _ ?_))
      exact occurs_join_of_mem _
        (List.mem_map_of_mem
          (fun o : ScriptOption => "<li><code>" ++ o.flag ++ "</code> - " ++ o.desc ++ "</li>") ho)

/-- C6 (as amended): manifest strings are interpolated verbatim, with no escaping. In
every page handed to `writeFileSync`, each release version, badge label, asset name and
asset arch, and each script name, description, file, feature string, option flag and
option desc occurs unchanged between the markup of its place of interpolation, whatever
characters it holds. -/
theorem fields_verbatim (host : Host) (data : Manifest) (out : String)
    (hout : (run host data).written = some out) :
    (∀ r ∈ data.agent.releases,
      Occurs ("<span class=\"release-version\">" ++ r.version ++ "</span>") out ∧
      (∀ label ∈ r.badges.getD [],
        Occurs ("<span class=\"release-badge arm\">" ++ label ++ "</span>") out) ∧
      (∀ a ∈ r.assets,
        Occurs ("<span class=\"asset-name\">" ++ a.name ++ "</span>") out ∧
        Occurs ("<span class=\"asset-arch\">" ++ a.arch ++ "</span>") out)) ∧
    (∀ s, data.scripts.stack = some s ∨ data.scripts.agent = some s →
      Occurs ("<h3>" ++ s.name ++ "</h3>") out ∧
      Occurs ("<p>" ++ s.description ++ "</p>") out ∧
      Occurs ("<a href=\"" ++ s.file ++ "\" download") out ∧
      Occurs (">Download " ++ s.file ++ "</a>") out ∧
      (∀ f ∈ s.features.getD [], Occurs ("<li>" ++ f ++ "</li>") out) ∧
      (s.features = none → ∀ o ∈ s.options.getD [],
        Occurs ("<li><code>" ++ o.flag ++ "</code> - " ++ o.desc ++ "</li>") out)) := by
  obtain ⟨s, a, hs, ha, hpage⟩ := run_written_inv host data out hout
  have hcards : Occurs
      (join "\n" (data.agent.releases.map (fun r => generateReleaseCard host r data.agent.repo)))
      out := hpage ▸ occurs_releaseCards_page _ _ _ _ _ _
  have hstack : Occurs (generateScriptCard (baseUrl data.domain) s "stack") out :=
    hpage ▸ occurs_stackCard_page _ _ _ _ _ _
  have hagent : Occurs (generateScriptCard (baseUrl data.domain) a "agent") out :=
    hpage ▸ occurs_agentCard_page _ _ _ _ _ _
  constructor
  · intro r hr
    have hcard : Occurs (generateReleaseCard host r data.agent.repo) out :=
      occurs_trans
        (occurs_join_of_mem "\n"
          (List.mem_map_of_mem (fun r => generateReleaseCard host r data.agent.repo) hr))
        hcards
    obtain ⟨h1, h2, h3⟩ := release_fields_in_card host r data.agent.repo
    exact ⟨occurs_trans h1 hcard, fun l hl => occurs_trans (h2 l hl) hcard,
      fun x hx => ⟨occurs_trans (h3 x hx).1 hcard, occurs_trans (h3 x hx).2 hcard⟩⟩
  · intro s2 hs2
    have hcard : ∃ type, Occurs (generateScriptCard (baseUrl data.domain) s2 type) out := by
      rcases hs2 with h | h
      · rw [hs] at h
        injection h with h
        subst h
        exact ⟨"stack", hstack⟩
      · rw [ha] at h
        injection h with h
        subst h
        exact ⟨"agent", hagent⟩
    obtain ⟨type, hcard⟩ := hcard
    obtain ⟨h1, h2, h3, h4, h5, h6⟩ := script_fields_in_card (baseUrl data.domain) s2 type
    exact ⟨occurs_trans h1 hcard, occurs_trans h2 hcard, occurs_trans h3 hcard,
      occurs_trans h4 hcard, fun f hf => occurs_trans (h5 f hf) hcard,
      fun hn o ho => occurs_trans (h6 hn o ho) hcard⟩


/-- The page of `markupData` is written, with the card of `markupRelease` in it. -/
theorem markup_card_in_page :
    Occurs (generateReleaseCard utcHost markupRelease markupData.agent.repo)
      (writtenPage utcHost markupData) := by
  have h := run_of_valid utcHost markupData stackScript agentScript rfl rfl (by decide)
  unfold writtenPage
  rw [h.1]
  exact occurs_trans (occurs_join_of_mem "\n" (List.mem_singleton.mpr rfl))
    (occurs_releaseCards_page _ _ _ _ _ _)

/-- Witness of C6 (as amended): the strings of `markupData` in its page. -/
theorem fields_verbatim_witness :
    Occurs "<span class=\"release-version\">1.0<beta></span>" (writtenPage utcHost markupData) ∧
    Occurs "<span class=\"release-badge arm\">a&b</span>" (writtenPage utcHost markupData) ∧
    Occurs "<span class=\"asset-name\">agent\"x</span>" (writtenPage utcHost markupData) ∧
    Occurs "<h3>Stack</h3>" (writtenPage utcHost markupData) :=
  have hw : (run utcHost markupData).written = some (writtenPage utcHost markupData) := by
    have h := run_of_valid utcHost markupData stackScript agentScript rfl rfl (by decide)
    unfold writtenPage
    rw [h.1]
    rfl
  have h := fields_verbatim utcHost markupData (writtenPage utcHost markupData) hw
  ⟨(h.1 markupRelease (List.mem_singleton.mpr rfl)).1,
   (h.1 markupRelease (List.mem_singleton.mpr rfl)).2.1 "a&b" (List.mem_singleton.mpr rfl),
   ((h.1 markupRelease (List.mem_singleton.mpr rfl)).2.2 _ (List.mem_singleton.mpr rfl)).1,
   (h.2 stackScript (Or.inl rfl)).1⟩

set_option maxRecDepth 100000 in
/-- C6 as stated fails: the version `1.0<beta>`, the label `a&b` and the asset name
`agent"x` of `markupData` reach the written page raw, at their places of
interpolation, and the card holds no `&lt;`, `&gt;`, `&amp;` or `&quot;`. -/
theorem fields_escaped_counterexample :
    '<' ∈ markupRelease.version.data ∧
    Occurs "<span class=\"release-version\">1.0<beta></span>" (writtenPage utcHost markupData) ∧
    Occurs "<span class=\"release-badge arm\">a&b</span>" (writtenPage utcHost markupData) ∧
    Occurs "<span class=\"asset-name\">agent\"x</span>" (writtenPage utcHost markupData) ∧
    ¬ Occurs "&lt;" (generateReleaseCard utcHost markupRelease markupData.agent.repo) ∧
    ¬ Occurs "&gt;" (generateReleaseCard utcHost markupRelease markupData.agent.repo) ∧
    ¬ Occurs "&amp;" (generateReleaseCard utcHost markupRelease markupData.agent.repo) ∧
    ¬ Occurs "&quot;" (generateReleaseCard utcHost markupRelease markupData.agent.repo) := by
  have hcard := release_fields_in_card utcHost markupRelease markupData.agent.repo
  refine ⟨by decide, occurs_trans hcard.1 markup_card_in_page,
    occurs_trans (hcard.2.1 "a&b" (List.mem_singleton.mpr rfl)) markup_card_in_page,
    occurs_trans (hcard.2.2 _ (List.mem_singleton.mpr rfl)).1 markup_card_in_page,
    by decide, by decide, by decide, by decide⟩

/-! ## Dates (lines 11-14) -/

/-- The year of the 400-year era is recovered from the day of the era: the centuries
`c`, the four-year groups `u` and the years `r` of the group are counted apart. -/
theorem yearOfEra_recover_aux (c u r doy : Int) (hc0 : 0 ≤ c) (hc : c ≤ 3) (hu0 : 0 ≤ u)
    (hu : u ≤ 24) (hr0 : 0 ≤ r) (hr : r ≤ 3) (h2 : 0 ≤ doy)
    (h3 : doy ≤ 364 ∨ (doy = 365 ∧ r = 3 ∧ (u ≠ 24 ∨ c = 3))) :
    ((36524 * c + 1461 * u + 365 * r + doy) - (36524 * c + 1461 * u + 365 * r + doy) / 1460
      + (36524 * c + 1461 * u + 365 * r + doy) / 36524
      - (36524 * c + 1461 * u + 365 * r + doy) / 146096) / 365 = 100 * c + 4 * u + r := by
  have h36524 : (36524 * c + 1461 * u + 365 * r + doy) / 36524 =
      if c = 3 ∧ u = 24 ∧ r = 3 ∧ doy = 365 then 4 else c := by
    split <;> omega
  have h146096 : (36524 * c + 1461 * u + 365 * r + doy) / 146096 =
      if c = 3 ∧ u = 24 ∧ r = 3 ∧ doy = 365 then 1 else 0 := by
    split <;> omega
  have h1460 : (36524 * c + 1461 * u + 365 * r + doy) / 1460 =
      25 * c + u + (if 1460 ≤ 24 * c + u + 365 * r + doy then 1 else 0) := by
    split <;> omega
  rw [h36524, h146096, h1460]
  split <;> split <;> omega

/-- The day of the era written with the year of the era `yoe` and the day `doy` of that
year (years starting on March 1) gives both back. -/
theorem yearOfEra_recover (yoe doy : Int) (h0 : 0 ≤ yoe) (h1 : yoe ≤ 399) (h2 : 0 ≤ doy)
    (h3 : doy ≤ 364 ∨ (doy = 365 ∧ yoe % 4 = 3 ∧ (yoe % 100 ≠ 99 ∨ yoe = 399))) :
    ((yoe * 365 + yoe / 4 - yoe / 100 + doy) - (yoe * 365 + yoe / 4 - yoe / 100 + doy) / 1460
      + (yoe * 365 + yoe / 4 - yoe / 100 + doy) / 36524
      - (yoe * 365 + yoe / 4 - yoe / 100 + doy) / 146096) / 365 = yoe ∧
    0 ≤ yoe * 365 + yoe / 4 - yoe / 100 + doy ∧
    yoe * 365 + yoe / 4 - yoe / 100 + doy ≤ 146096 := by
  have e : yoe * 365 + yoe / 4 - yoe / 100 + doy =
      36524 * (yoe / 100) + 1461 * (yoe % 100 / 4) + 365 * (yoe % 4) + doy := by omega
  have haux := yearOfEra_recover_aux (yoe / 100) (yoe % 100 / 4) (yoe % 4) doy
    (by omega) (by omega) (by omega) (by omega) (by omega) (by omega) h2 (by omega)
  rw [e, haux]
  refine ⟨by omega, by omega, by omega⟩

/-- The civil date of a day given by its era, year of the era and day of that year. -/
theorem civilFromDays_of_era (era yoe doy : Int) (h0 : 0 ≤ yoe) (h1 : yoe ≤ 399)
    (h2 : 0 ≤ doy)
    (h3 : doy ≤ 364 ∨ (doy = 365 ∧ yoe % 4 = 3 ∧ (yoe % 100 ≠ 99 ∨ yoe = 399))) :
    civilFromDays (era * 146097 + (yoe * 365 + yoe / 4 - yoe / 100 + doy) - 719468) =
      (if (if (5 * doy + 2) / 153 < 10 then (5 * doy + 2) / 153 + 3
            else (5 * doy + 2) / 153 - 9) ≤ 2
        then yoe + era * 400 + 1 else yoe + era * 400,
       (if (5 * doy + 2) / 153 < 10 then (5 * doy + 2) / 153 + 3
          else (5 * doy + 2) / 153 - 9).toNat,
       (doy - (153 * ((5 * doy + 2) / 153) + 2) / 5 + 1).toNat) := by
  obtain ⟨hy, hd0, hd1⟩ := yearOfEra_recover yoe doy h0 h1 h2 h3
  have e4 : yoe * 365 + yoe / 4 - yoe / 100 + doy - (365 * yoe + yoe / 4 - yoe / 100) = doy := by
    omega
  generalize hdoe : yoe * 365 + yoe / 4 - yoe / 100 + doy = doe at hy hd0 hd1 e4
  have e1 : era * 146097 + doe - 719468 + 719468 = era * 146097 + doe := by omega
  have e2 : (era * 146097 + doe) / 146097 = era := by omega
  have e3 : era * 146097 + doe - era * 146097 = doe := by omega
  simp only [civilFromDays, e1, e2, e3, hy, e4]

/-- Leap years in propositional form. -/
theorem isLeapYear_iff (y : Int) :
    isLeapYear y = true ↔ (y % 4 = 0 ∧ y % 100 ≠ 0) ∨ y % 400 = 0 := by
  simp [isLeapYear]

/-- `civilFromDays` undoes `daysFromCivil` on every day that exists. -/
theorem civilFromDays_daysFromCivil (y : Int) (m d : Nat)
    (hm1 : 1 ≤ m) (hm2 : m ≤ 12) (hd1 : 1 ≤ d) (hd2 : d ≤ daysInMonth y m) :
    civilFromDays (daysFromCivil y m d) = (y, m, d) := by
  have hleap := isLeapYear_iff y
  unfold daysInMonth at hd2
  have hfeb : m = 2 → d ≤ 28 ∨ (d = 29 ∧ ((y % 4 = 0 ∧ y % 100 ≠ 0) ∨ y % 400 = 0)) := by
    intro hm
    subst hm
    simp only [if_true] at hd2
    by_cases hl : isLeapYear y = true
    · rw [if_pos hl] at hd2
      have := hleap.mp hl
      omega
    · rw [if_neg hl] at hd2
      omega
  have hlen : m ≠ 2 → d ≤ 31 ∧ (m = 4 ∨ m = 6 ∨ m = 9 ∨ m = 11 → d ≤ 30) := by
    intro hm
    rw [if_neg hm] at hd2
    by_cases h30 : m = 4 ∨ m = 6 ∨ m = 9 ∨ m = 11
    · rw [if_pos h30] at hd2
      exact ⟨by omega, fun _ => hd2⟩
    · rw [if_neg h30] at hd2
      exact ⟨hd2, fun h => absurd h h30⟩
  clear hd2 hleap
  interval_cases m
  case «2» =>
    have hf := hfeb rfl
    clear hfeb hlen
    simp only [daysFromCivil, Nat.reduceLeDiff, Nat.reduceGT, if_true, if_false, Nat.cast_ofNat,
      Nat.le_refl, gt_iff_lt, Nat.lt_irrefl, Nat.reduceLT]
    norm_num
    rw [civilFromDays_of_era _ _ _ (by omega) (by omega) (by omega) (by omega)]
    have hmp : (5 * (337 + (d : Int) - 1) + 2) / 153 = 11 := by omega
    rw [hmp]
    norm_num
    omega
  case «1» =>
    have hl := hlen (by decide)
    norm_num at hl
    clear hfeb hlen
    simp only [daysFromCivil, Nat.reduceLeDiff, Nat.reduceGT, if_true, if_false, Nat.cast_ofNat,
      Nat.le_refl, gt_iff_lt, Nat.lt_irrefl, Nat.reduceLT]
    norm_num
    rw [civilFromDays_of_era _ _ _ (by omega) (by omega) (by omega) (by omega)]
    have hmp : (5 * (306 + (d : Int) - 1) + 2) / 153 = 10 := by omega
    rw [hmp]
    norm_num
    omega
  case «3» =>
    have hl := hlen (by decide)
    norm_num at hl
    clear hfeb hlen
    simp only [daysFromCivil, Nat.reduceLeDiff, Nat.reduceGT, if_true, if_false, Nat.cast_ofNat,
      Nat.le_refl, gt_iff_lt, Nat.lt_irrefl, Nat.reduceLT]
    norm_num
    rw [civilFromDays_of_era _ _ _ (by omega) (by omega) (by omega) (by omega)]
    have hmp : (5 * ((d : Int) - 1) + 2) / 153 = 0 := by omega
    rw [hmp]
    norm_num
    omega
  case «4» =>
    have hl := hlen (by decide)
    norm_num at hl
    clear hfeb hlen
    simp only [daysFromCivil, Nat.reduceLeDiff, Nat.reduceGT, if_true, if_false, Nat.cast_ofNat,
      Nat.le_refl, gt_iff_lt, Nat.lt_irrefl, Nat.reduceLT]
    norm_num
    rw [civilFromDays_of_era _ _ _ (by omega) (by omega) (by omega) (by omega)]
    have hmp : (5 * (31 + (d : Int) - 1) + 2) / 153 = 1 := by omega
    rw [hmp]
    norm_num
    omega
  case «5» =>
    have hl := hlen (by decide)
    norm_num at hl
    clear hfeb hlen
    simp only [daysFromCivil, Nat.reduceLeDiff, Nat.reduceGT, if_true, if_false, Nat.cast_ofNat,
      Nat.le_refl, gt_iff_lt, Nat.lt_irrefl, Nat.reduceLT]
    norm_num
    rw [civilFromDays_of_era _ _ _ (by omega) (by omega) (by omega) (by omega)]
    have hmp : (5 * (61 + (d : Int) - 1) + 2) / 153 = 2 := by omega
    rw [hmp]
    norm_num
    omega
  case «6» =>
    have hl := hlen (by decide)
    norm_num at hl
    clear hfeb hlen
    simp only [daysFromCivil, Nat.reduceLeDiff, Nat.reduceGT, if_true, if_false, Nat.cast_ofNat,
      Nat.le_refl, gt_iff_lt, Nat.lt_irrefl, Nat.reduceLT]
    norm_num
    rw [civilFromDays_of_era _ _ _ (by omega) (by omega) (by omega) (by omega)]
    have hmp : (5 * (92 + (d : Int) - 1) + 2) / 153 = 3 := by omega
    rw [hmp]
    norm_num
    omega
  case «7» =>
    have hl := hlen (by decide)
    norm_num at hl
    clear hfeb hlen
    simp only [daysFromCivil, Nat.reduceLeDiff, Nat.reduceGT, if_true, if_false, Nat.cast_ofNat,
      Nat.le_refl, gt_iff_lt, Nat.lt_irrefl, Nat.reduceLT]
    norm_num
    rw [civilFromDays_of_era _ _ _ (by omega) (by omega) (by omega) (by omega)]
    have hmp : (5 * (122 + (d : Int) - 1) + 2) / 153 = 4 := by omega
    rw [hmp]
    norm_num
    omega
  case «8» =>
    have hl := hlen (by decide)
    norm_num at hl
    clear hfeb hlen
    simp only [daysFromCivil, Nat.reduceLeDiff, Nat.reduceGT, if_true, if_false, Nat.cast_ofNat,
      Nat.le_refl, gt_iff_lt, Nat.lt_irrefl, Nat.reduceLT]
    norm_num
    rw [civilFromDays_of_era _ _ _ (by omega) (by omega) (by omega) (by omega)]
    have hmp : (5 * (153 + (d : Int) - 1) + 2) / 153 = 5 := by omega
    rw [hmp]
    norm_num
    omega
  case «9» =>
    have hl := hlen (by decide)
    norm_num at hl
    clear hfeb hlen
    simp only [daysFromCivil, Nat.reduceLeDiff, Nat.reduceGT, if_true, if_false, Nat.cast_ofNat,
      Nat.le_refl, gt_iff_lt, Nat.lt_irrefl, Nat.reduceLT]
    norm_num
    rw [civilFromDays_of_era _ _ _ (by omega) (by omega) (by omega) (by omega)]
    have hmp : (5 * (184 + (d : Int) - 1) + 2) / 153 = 6 := by omega
    rw [hmp]
    norm_num
    omega
  case «10» =>
    have hl := hlen (by decide)
    norm_num at hl
    clear hfeb hlen
    simp only [daysFromCivil, Nat.reduceLeDiff, Nat.reduceGT, if_true, if_false, Nat.cast_ofNat,
      Nat.le_refl, gt_iff_lt, Nat.lt_irrefl, Nat.reduceLT]
    norm_num
    rw [civilFromDays_of_era _ _ _ (by omega) (by omega) (by omega) (by omega)]
    have hmp : (5 * (214 + (d : Int) - 1) + 2) / 153 = 7 := by omega
    rw [hmp]
    norm_num
    omega
  case «11» =>
    have hl := hlen (by decide)
    norm_num at hl
    clear hfeb hlen
    simp only [daysFromCivil, Nat.reduceLeDiff, Nat.reduceGT, if_true, if_false, Nat.cast_ofNat,
      Nat.le_refl, gt_iff_lt, Nat.lt_irrefl, Nat.reduceLT]
    norm_num
    rw [civilFromDays_of_era _ _ _ (by omega) (by omega) (by omega) (by omega)]
    have hmp : (5 * (245 + (d : Int) - 1) + 2) / 153 = 8 := by omega
    rw [hmp]
    norm_num
    omega
  case «12» =>
    have hl := hlen (by decide)
    norm_num at hl
    clear hfeb hlen
    simp only [daysFromCivil, Nat.reduceLeDiff, Nat.reduceGT, if_true, if_false, Nat.cast_ofNat,
      Nat.le_refl, gt_iff_lt, Nat.lt_irrefl, Nat.reduceLT]
    norm_num
    rw [civilFromDays_of_era _ _ _ (by omega) (by omega) (by omega) (by omega)]
    have hmp : (5 * (275 + (d : Int) - 1) + 2) / 153 = 9 := by omega
    rw [hmp]
    norm_num
    omega

/-- A digit character is read back as its digit. -/
theorem digitVal_digitChar (n : Nat) : digitVal (digitChar n) = some (n % 10) := by
  have h : ∀ k : Fin 10, digitVal (Char.ofNat (48 + k.val)) = some k.val := by decide
  exact h ⟨n % 10, Nat.mod_lt _ (by decide)⟩

/-- Every day that exists, written `YYYY-MM-DD`, is a date-only ISO string. -/
theorem parseIsoDate_isoDateString (y m d : Nat) (hy : y ≤ 9999)
    (hm1 : 1 ≤ m) (hm2 : m ≤ 12) (hd1 : 1 ≤ d) (hd2 : d ≤ daysInMonth y m) :
    parseIsoDate (isoDateString y m d) = some ((y : Int), m, d) := by
  have hd31 : d ≤ 31 := by
    unfold daysInMonth at hd2
    split_ifs at hd2 <;> omega
  have ey : y / 1000 % 10 * 1000 + y / 100 % 10 * 100 + y / 10 % 10 * 10 + y % 10 = y := by
    omega
  have em : m / 10 % 10 * 10 + m % 10 = m := by omega
  have ed : d / 10 % 10 * 10 + d % 10 = d := by omega
  simp only [parseIsoDate, isoDateString, digitVal_digitChar, ey, em, ed]
  rw [if_pos ⟨hm1, hm2, hd1, hd2⟩]

/-- Days of the years 0000 to 9999 lie well inside the range of time values. -/
theorem daysFromCivil_bounds (y m d : Nat) (hy : y ≤ 9999) (hm1 : 1 ≤ m) (hm2 : m ≤ 12)
    (hd1 : 1 ≤ d) (hd31 : d ≤ 31) :
    -719528 ≤ daysFromCivil y m d ∧ daysFromCivil y m d ≤ 2932896 := by
  unfold daysFromCivil
  simp only []
  split_ifs <;> omega

/-- Local midnight-or-later of the same UTC day: with an offset from 0 up to under a
day, the local calendar day of midnight UTC is that day. -/
theorem toLocaleDateString_of_midnight (host : Host) (y m d : Nat) (hy1 : 1 ≤ y)
    (hm1 : 1 ≤ m) (hm2 : m ≤ 12) (hd1 : 1 ≤ d) (hd2 : d ≤ daysInMonth y m)
    (hoff0 : 0 ≤ host.localOffsetMinutes (daysFromCivil y m d * msPerDay))
    (hoff1 : host.localOffsetMinutes (daysFromCivil y m d * msPerDay) < 1440) :
    toLocaleDateString host (some (daysFromCivil y m d * msPerDay)) =
      monthName m ++ " " ++ decimal d ++ ", " ++ decimal y := by
  have hday : (daysFromCivil y m d * msPerDay +
      host.localOffsetMinutes (daysFromCivil y m d * msPerDay) * 60000) / msPerDay =
      daysFromCivil y m d := by
    unfold msPerDay at *
    omega
  have hyear : yearOfEra (y : Int) = y := by
    unfold yearOfEra
    rw [if_pos (by omega)]
    exact Int.toNat_natCast y
  simp only [toLocaleDateString, hday, civilFromDays_daysFromCivil y m d hm1 hm2 hd1 hd2, hyear]


/-- A number below ten prints as its digit. -/
theorem decimalDigits_of_lt (fuel n : Nat) (hf : 0 < fuel) (hn : n < 10) :
    decimalDigits fuel n = [digitChar n] := by
  obtain ⟨k, rfl⟩ : ∃ k, fuel = k + 1 := ⟨fuel - 1, by omega⟩
  rw [decimalDigits, if_pos hn, digitChar, Nat.mod_eq_of_lt hn]

/-- A number from ten on prints as its tens followed by the digit of its units. -/
theorem decimalDigits_of_ge (fuel n : Nat) (hf : 0 < fuel) (hn : 10 ≤ n) :
    decimalDigits fuel n = decimalDigits (fuel - 1) (n / 10) ++ [digitChar n] := by
  obtain ⟨k, rfl⟩ : ∃ k, fuel = k + 1 := ⟨fuel - 1, by omega⟩
  rw [decimalDigits, if_neg (by omega), digitChar]
  rfl

/-- How days of the month and years print: no leading zero, and four digits from the
year 1000 on. -/
theorem decimal_shapes (n : Nat) :
    (n < 10 → decimal n = String.mk [digitChar n]) ∧
    (10 ≤ n → n < 100 → decimal n = String.mk [digitChar (n / 10), digitChar n]) ∧
    (100 ≤ n → n < 1000 →
      decimal n = String.mk [digitChar (n / 100), digitChar (n / 10), digitChar n]) ∧
    (1000 ≤ n → n ≤ 9999 →
      decimal n =
        String.mk [digitChar (n / 1000), digitChar (n / 100), digitChar (n / 10), digitChar n]) := by
  refine ⟨?_, ?_, ?_, ?_⟩
  · intro h
    rw [decimal, decimalDigits_of_lt _ _ (by omega) h]
  · intro h1 h2
    rw [decimal, decimalDigits_of_ge _ _ (by omega) h1,
      decimalDigits_of_lt _ _ (by omega) (by omega)]
    rfl
  · intro h1 h2
    rw [decimal, decimalDigits_of_ge _ _ (by omega) (by omega),
      decimalDigits_of_ge _ _ (by omega) (by omega),
      decimalDigits_of_lt _ _ (by omega) (by omega)]
    simp only [Nat.div_div_eq_div_mul]
    rfl
  · intro h1 h2
    rw [decimal, decimalDigits_of_ge _ _ (by omega) (by omega),
      decimalDigits_of_ge _ _ (by omega) (by omega),
      decimalDigits_of_ge _ _ (by omega) (by omega),
      decimalDigits_of_lt _ _ (by omega) (by omega)]
    simp only [Nat.div_div_eq_div_mul]
    rfl

/-- C13 (as amended): for every day that exists in the years 0001 to 9999, written as
the date-only ISO string `YYYY-MM-DD`, and formatted in a process whose local time is UTC
or ahead of it by less than a day, `formatDate` returns the English month name, a space,
the day of the month without leading zero, a comma and a space, and the year in decimal
without leading zeros, which from the year 1000 on is the four digits of the input; the
date named is the calendar day of the input. -/
theorem formatDate_iso_date (host : Host) (y m d : Nat) (hy1 : 1 ≤ y) (hy : y ≤ 9999)
    (hm1 : 1 ≤ m) (hm2 : m ≤ 12) (hd1 : 1 ≤ d) (hd2 : d ≤ daysInMonth y m)
    (hoff0 : 0 ≤ host.localOffsetMinutes (daysFromCivil y m d * msPerDay))
    (hoff1 : host.localOffsetMinutes (daysFromCivil y m d * msPerDay) < 1440) :
    formatDate host (isoDateString y m d) =
      monthName m ++ " " ++ decimal d ++ ", " ++ decimal y ∧
    (d < 10 → decimal d = String.mk [digitChar d]) ∧
    (10 ≤ d → decimal d = String.mk [digitChar (d / 10), digitChar d]) ∧
    (1000 ≤ y →
      decimal y =
        String.mk [digitChar (y / 1000), digitChar (y / 100), digitChar (y / 10), digitChar y]) := by
  have hd31 : d ≤ 31 := by
    unfold daysInMonth at hd2
    split_ifs at hd2 <;> omega
  have hb := daysFromCivil_bounds y m d hy hm1 hm2 hd1 hd31
  have hclip : timeClip (daysFromCivil y m d * msPerDay) =
      some (daysFromCivil y m d * msPerDay) := by
    unfold timeClip msPerDay
    rw [if_pos (by omega)]
  refine ⟨?_, (decimal_shapes d).1, fun h => (decimal_shapes d).2.1 h (by omega),
    fun h => (decimal_shapes y).2.2.2 h hy⟩
  unfold formatDate newDate
  simp only [parseIsoDate_isoDateString y m d hy hm1 hm2 hd1 hd2, hclip]
  exact toLocaleDateString_of_midnight host y m d hy1 hm1 hm2 hd1 hd2 hoff0 hoff1

/-- Witness of C13: 2024-01-15 gives January 15, 2024 in UTC. -/
theorem formatDate_iso_date_witness :
    formatDate utcHost "2024-01-15" = "January 15, 2024" :=
  (formatDate_iso_date utcHost 2024 1 15 (by decide) (by decide) (by decide) (by decide)
    (by decide) (by decide) (by decide) (by decide)).1

/-- C13 as stated fails: the valid date 0999-03-01 is printed with the three-digit year
`999`, and five hours behind UTC the valid date 2024-01-15 is printed as the day
before. -/
theorem formatDate_iso_date_counterexample :
    parseIsoDate "0999-03-01" = some (999, 3, 1) ∧
    formatDate utcHost "0999-03-01" = "March 1, 999" ∧
    parseIsoDate "2024-01-15" = some (2024, 1, 15) ∧
    formatDate newYorkHost "2024-01-15" = "January 14, 2024" := by
  decide

/-- What is not a date prints as `Invalid Date`. -/
theorem formatDate_of_invalid (host : Host) (dateStr : String)
    (h : newDate host dateStr = none) : formatDate host dateStr = "Invalid Date" := by
  unfold formatDate
  rw [h]
  rfl

/-- The formatted date of a release in its card (line 51). -/
theorem date_in_card (host : Host) (release : Release) (repo : String) :
    Occurs ("<span class=\"release-date\">" ++ formatDate host release.date ++ "</span>")
      (generateReleaseCard host release repo) := by
  unfold generateReleaseCard
  repeat (first
    | ((with_reducible refine occurs_around _ _ ?_ ?_) <;> decide)
    | (with_reducible refine occurs_append_left _ ?_))

/-- C14 (as amended): a string that is not a parseable date makes nothing fail.
`formatDate` returns the string `Invalid Date`, `generateReleaseCard` renders it in the
`release-date` element of the card, and the page with that card is handed to
`writeFileSync`; no error arises from the date. -/
theorem invalid_date_rendered (host : Host) (data : Manifest) (s a : Script) (release : Release)
    (hs : data.scripts.stack = some s) (ha : data.scripts.agent = some a)
    (hmem : release ∈ data.agent.releases)
    (hdate : newDate host release.date = none) :
    formatDate host release.date = "Invalid Date" ∧
    Occurs "<span class=\"release-date\">Invalid Date</span>"
      (generateReleaseCard host release data.agent.repo) ∧
    Occurs "<span class=\"release-date\">Invalid Date</span>" (writtenPage host data) ∧
    (run host data).error = (if host.writeFails then some .ioError else none) := by
  have hfmt := formatDate_of_invalid host release.date hdate
  have hcard : Occurs "<span class=\"release-date\">Invalid Date</span>"
      (generateReleaseCard host release data.agent.repo) := by
    have h := date_in_card host release data.agent.repo
    rw [hfmt] at h
    exact h
  have hne : data.agent.releases ≠ [] := List.ne_nil_of_mem hmem
  have hrun := run_of_valid host data s a hs ha hne
  refine ⟨hfmt, hcard, ?_, hrun.2⟩
  unfold writtenPage
  rw [hrun.1]
  exact occurs_trans hcard
    (occurs_trans
      (occurs_join_of_mem "\n"
        (List.mem_map_of_mem (fun r => generateReleaseCard host r data.agent.repo) hmem))
      (occurs_releaseCards_page _ _ _ _ _ _))

/-- Witness of C14 (as amended): a release dated `soon`. -/
theorem invalid_date_rendered_witness :
    formatDate utcHost "soon" = "Invalid Date" ∧
    Occurs "<span class=\"release-date\">Invalid Date</span>"
      (generateReleaseCard utcHost undatedRelease undatedData.agent.repo) ∧
    Occurs "<span class=\"release-date\">Invalid Date</span>" (writtenPage utcHost undatedData) ∧
    (run utcHost undatedData).error = none :=
  invalid_date_rendered utcHost undatedData stackScript agentScript undatedRelease rfl rfl
    (List.mem_singleton.mpr rfl) (by decide)

/-- C14 as stated fails: `soon` is no date, yet `formatDate` returns a string, the run
ends without error, and the written page shows `Invalid Date`. -/
theorem invalid_date_counterexample :
    newDate utcHost undatedRelease.date = none ∧
    formatDate utcHost undatedRelease.date = "Invalid Date" ∧
    (run utcHost undatedData).error = none ∧
    (run utcHost undatedData).written.isSome = true ∧
    Occurs "<span class=\"release-date\">Invalid Date</span>" (writtenPage utcHost undatedData) := by
  have hrun := run_of_valid utcHost undatedData stackScript agentScript rfl rfl (by decide)
  have hcard : Occurs "<span class=\"release-date\">Invalid Date</span>"
      (generateReleaseCard utcHost undatedRelease undatedData.agent.repo) :=
    date_in_card utcHost undatedRelease undatedData.agent.repo
  refine ⟨by decide, by decide, hrun.2, ?_, ?_⟩
  · rw [hrun.1]
    rfl
  · unfold writtenPage
    rw [hrun.1]
    exact occurs_trans hcard
      (occurs_trans (occurs_join_of_mem "\n" (List.mem_singleton.mpr rfl))
        (occurs_releaseCards_page _ _ _ _ _ _))

/-- Two texts that part ways within their first `n` characters stay apart whatever
follows them. -/
theorem append_ne_of_take_ne (n : Nat) (a b X Y : List Char)
    (ha : n ≤ a.length) (hb : n ≤ b.length) (hne : a.take n ≠ b.take n) :
    a ++ X ≠ b ++ Y := by
  intro h
  apply hne
  have h2 := congrArg (List.take n) h
  rwa [List.take_append_of_le_length ha, List.take_append_of_le_length hb] at h2

/-- The cards of the two kinds differ for every base URL and descriptor: they part ways
at the second line of the icon, `<rect` against `<polyline`. -/
theorem script_cards_differ (baseUrl : String) (script : Script) :
    generateScriptCard baseUrl script "stack" ≠ generateScriptCard baseUrl script "agent" := by
  have hagent : ¬ ("agent" = "stack") := by decide
  unfold generateScriptCard usageCmd icon
  rw [if_pos rfl, if_pos rfl, if_neg hagent, if_neg hagent]
  intro h
  have h2 := congrArg String.data h
  simp only [String.data_append, List.append_assoc] at h2
  iterate 5 (replace h2 := List.append_cancel_left h2)
  exact append_ne_of_take_ne 34 _ _ _ _ (by decide) (by decide) (by decide) h2

/-- C17: `generateScriptCard` is a two-way switch on the kind tag `stack`. For every tag
other than `stack`, unknown ones included, the card is the card of the tag `agent`, and
that card is the template of lines 89-104 holding the agent icon in its `script-icon`
element and the `sudo bash -s -- -p postgres` command in its `code` element. The card of
`stack` is the same template holding the stack icon and the plain command. The two cards
differ, every card is one of the two, and which one is decided by `type = stack` alone,
so the icon of one kind never meets the command of the other. -/
theorem script_card_two_way (baseUrl : String) (script : Script) (type : String) :
    (type ≠ "stack" →
      generateScriptCard baseUrl script type = generateScriptCard baseUrl script "agent" ∧
      usageCmd baseUrl script type =
        "curl -sSL " ++ baseUrl ++ "/" ++ script.file ++ " | sudo bash -s -- -p postgres" ∧
      icon type = icon "agent" ∧
      generateScriptCard baseUrl script type =
      "\n" ++
      "                    <div class=\"script-card\">\n" ++
      "                        <div class=\"script-icon\">\n" ++
      "                            " ++
        ("<svg width=\"24\" height=\"24\" viewBox=\"0 0 24 24\" fill=\"none\" stroke=\"currentColor\" stroke-width=\"2\">\n" ++
         "                                <polyline points=\"4 17 10 11 4 5\"></polyline>\n" ++
         "                                <line x1=\"12\" y1=\"19\" x2=\"20\" y2=\"19\"></line>\n" ++
         "                            </svg>") ++ "\n" ++
      "                        </div>\n" ++
      "                        <h3>" ++ script.name ++ "</h3>\n" ++
      "                        <p>" ++ script.description ++ "</p>\n" ++
      "                        <div class=\"script-usage\">\n" ++
      "                            <div class=\"code-block small\">\n" ++
      "                                <code>" ++
        ("curl -sSL " ++ baseUrl ++ "/" ++ script.file ++ " | sudo bash -s -- -p postgres") ++
        "</code>\n" ++
      "                            </div>\n" ++
      "                        </div>\n" ++
      "                        <div class=\"script-options\">" ++ optionsHtml script ++ "\n" ++
      "                        </div>\n" ++
      "                        <a href=\"" ++ script.file ++ "\" download class=\"btn-download full-width\">Download " ++ script.file ++ "</a>\n" ++
      "                    </div>" ∧
      Occurs
        ("<svg width=\"24\" height=\"24\" viewBox=\"0 0 24 24\" fill=\"none\" stroke=\"currentColor\" stroke-width=\"2\">\n" ++
         "                                <polyline points=\"4 17 10 11 4 5\"></polyline>\n" ++
         "                                <line x1=\"12\" y1=\"19\" x2=\"20\" y2=\"19\"></line>\n" ++
         "                            </svg>")
        (generateScriptCard baseUrl script type) ∧
      Occurs ("<code>" ++
          ("curl -sSL " ++ baseUrl ++ "/" ++ script.file ++ " | sudo bash -s -- -p postgres") ++
          "</code>")
        (generateScriptCard baseUrl script type)) ∧
    usageCmd baseUrl script "stack" = "curl -sSL " ++ baseUrl ++ "/" ++ script.file ++ " | bash" ∧
    icon "stack" ≠ icon "agent" ∧
    usageCmd baseUrl script "stack" ≠ usageCmd baseUrl script "agent" ∧
    generateScriptCard baseUrl script "stack" =
      "\n" ++
      "                    <div class=\"script-card\">\n" ++
      "                        <div class=\"script-icon\">\n" ++
      "                            " ++
        ("<svg width=\"24\" height=\"24\" viewBox=\"0 0 24 24\" fill=\"none\" stroke=\"currentColor\" stroke-width=\"2\">\n" ++
         "                                <rect x=\"2\" y=\"3\" width=\"20\" height=\"14\" rx=\"2\" ry=\"2\"></rect>\n" ++
         "                                <line x1=\"8\" y1=\"21\" x2=\"16\" y2=\"21\"></line>\n" ++
         "                                <line x1=\"12\" y1=\"17\" x2=\"12\" y2=\"21\"></line>\n" ++
         "                            </svg>") ++ "\n" ++
      "                        </div>\n" ++
      "                        <h3>" ++ script.name ++ "</h3>\n" ++
      "                        <p>" ++ script.description ++ "</p>\n" ++
      "                        <div class=\"script-usage\">\n" ++
      "                            <div class=\"code-block small\">\n" ++
      "                                <code>" ++
        ("curl -sSL " ++ baseUrl ++ "/" ++ script.file ++ " | bash") ++
        "</code>\n" ++
      "                            </div>\n" ++
      "                        </div>\n" ++
      "                        <div class=\"script-options\">" ++ optionsHtml script ++ "\n" ++
      "                        </div>\n" ++
      "                        <a href=\"" ++ script.file ++ "\" download class=\"btn-download full-width\">Download " ++ script.file ++ "</a>\n" ++
      "                    </div>" ∧
    Occurs
        ("<svg width=\"24\" height=\"24\" viewBox=\"0 0 24 24\" fill=\"none\" stroke=\"currentColor\" stroke-width=\"2\">\n" ++
         "                                <rect x=\"2\" y=\"3\" width=\"20\" height=\"14\" rx=\"2\" ry=\"2\"></rect>\n" ++
         "                                <line x1=\"8\" y1=\"21\" x2=\"16\" y2=\"21\"></line>\n" ++
         "                                <line x1=\"12\" y1=\"17\" x2=\"12\" y2=\"21\"></line>\n" ++
         "                            </svg>")
        (generateScriptCard baseUrl script "stack") ∧
    Occurs ("<code>" ++ ("curl -sSL " ++ baseUrl ++ "/" ++ script.file ++ " | bash") ++ "</code>")
      (generateScriptCard baseUrl script "stack") ∧
    generateScriptCard baseUrl script "stack" ≠ generateScriptCard baseUrl script "agent" ∧
    (generateScriptCard baseUrl script type = generateScriptCard baseUrl script "stack" ↔
      type = "stack") ∧
    (generateScriptCard baseUrl script type = generateScriptCard baseUrl script "agent" ↔
      type ≠ "stack") := by
  have hagent : ¬ ("agent" = "stack") := by decide
  have hother : ∀ t : String, t ≠ "stack" →
      generateScriptCard baseUrl script t = generateScriptCard baseUrl script "agent" := by
    intro t h
    unfold generateScriptCard usageCmd icon
    rw [if_neg h, if_neg h, if_neg hagent, if_neg hagent]
  have hdiff := script_cards_differ baseUrl script
  refine ⟨?_, ?_, by decide, ?_, ?_, ?_, ?_, hdiff, ?_, ?_⟩
  · intro h
    refine ⟨hother type h, ?_, ?_, ?_, ?_, ?_⟩
    · unfold usageCmd
      rw [if_neg h]
    · unfold icon
      rw [if_neg h, if_neg hagent]
    · unfold generateScriptCard usageCmd icon
      rw [if_neg h, if_neg h]
    · unfold generateScriptCard usageCmd icon
      rw [if_neg h, if_neg h]
      repeat (first
        | (with_reducible exact occurs_append_right _ (occurs_refl _))
        | (with_reducible refine occurs_append_left _ ?_))
    · unfold generateScriptCard usageCmd icon
      rw [if_neg h, if_neg h]
      repeat (first
        | ((with_reducible refine occurs_around _ _ ?_ ?_) <;> decide)
        | (with_reducible refine occurs_append_left _ ?_))
  · unfold usageCmd
    rw [if_pos rfl]
  · unfold usageCmd
    rw [if_pos rfl, if_neg hagent]
    intro h
    have h2 := congrArg String.data h
    simp only [String.data_append] at h2
    have h3 := List.append_cancel_left h2
    revert h3
    decide
  · unfold generateScriptCard usageCmd icon
    rw [if_pos rfl, if_pos rfl]
  · unfold generateScriptCard usageCmd icon
    rw [if_pos rfl, if_pos rfl]
    repeat (first
      | (with_reducible exact occurs_append_right _ (occurs_refl _))
      | (with_reducible refine occurs_append_left _ ?_))
  · unfold generateScriptCard usageCmd icon
    rw [if_pos rfl, if_pos rfl]
    repeat (first
      | ((with_reducible refine occurs_around _ _ ?_ ?_) <;> decide)
      | (with_reducible refine occurs_append_left _ ?_))
  · constructor
    · intro h
      by_contra hne
      exact hdiff (h.symm.trans (hother type hne))
    · intro h
      rw [h]
  · constructor
    · intro h hst
      rw [hst] at h
      exact hdiff h
    · exact hother type

/-- Witness of C17: the unknown tag `docker` gives the card of `agent`, with the `sudo`
command in its `code` element, and not the card of `stack`. -/
theorem script_card_two_way_witness :
    generateScriptCard "https://dl.example.com" agentScript "docker" =
      generateScriptCard "https://dl.example.com" agentScript "agent" ∧
    Occurs "<code>curl -sSL https://dl.example.com/install-agent.sh | sudo bash -s -- -p postgres</code>"
      (generateScriptCard "https://dl.example.com" agentScript "docker") ∧
    generateScriptCard "https://dl.example.com" agentScript "docker" ≠
      generateScriptCard "https://dl.example.com" agentScript "stack" :=
  ⟨((script_card_two_way "https://dl.example.com" agentScript "docker").1 (by decide)).1,
   ((script_card_two_way "https://dl.example.com" agentScript "docker").1
      (by decide)).2.2.2.2.2,
   fun h => absurd
     ((script_card_two_way "https://dl.example.com" agentScript "docker").2.2.2.2.2.2.2.2.1.mp h)
     (by decide)⟩

/-- A common end can be dropped from equal strings. -/
theorem append_cancel_tail {s t u : String} (h : s ++ u = t ++ u) : s = t := by
  have h2 := congrArg String.data h
  simp only [String.data_append] at h2
  exact String.ext (List.append_cancel_right h2)

/-- A common start can be dropped from equal strings. -/
theorem append_cancel_head {s t u : String} (h : u ++ s = u ++ t) : s = t := by
  have h2 := congrArg String.data h
  simp only [String.data_append] at h2
  exact String.ext (List.append_cancel_left h2)

set_option maxRecDepth 20000 in
/-- Two pages that differ only in their release cards differ. -/
theorem page_cards_injective (b sf af rc rc2 sc ac : String)
    (h : page b sf af rc sc ac = page b sf af rc2 sc ac) : rc = rc2 := by
  unfold page at h
  iterate 51 (with_reducible (replace h := append_cancel_tail h))
  with_reducible exact append_cancel_head h

set_option maxRecDepth 100000 in
/-- C15, evaluated where it fails: the page is not a function of the manifest alone.
The same manifest, whose release 1.4.0 is dated 2024-01-15, run in UTC and run five hours
behind UTC: both runs end without error, the first page shows January 15, 2024, the
second January 14, 2024, and the two written pages differ. -/
theorem output_depends_on_time_zone :
    formatDate utcHost release140.date = "January 15, 2024" ∧
    formatDate newYorkHost release140.date = "January 14, 2024" ∧
    Occurs "<span class=\"release-date\">January 15, 2024</span>" (writtenPage utcHost sampleData) ∧
    Occurs "<span class=\"release-date\">January 14, 2024</span>"
      (writtenPage newYorkHost sampleData) ∧
    (run utcHost sampleData).error = none ∧
    (run newYorkHost sampleData).error = none ∧
    (run utcHost sampleData).written ≠ (run newYorkHost sampleData).written := by
  have h1 := run_of_valid utcHost sampleData stackScript agentScript rfl rfl (by decide)
  have h2 := run_of_valid newYorkHost sampleData stackScript agentScript rfl rfl (by decide)
  have hmem : release140 ∈ sampleData.agent.releases := by decide
  have hin : ∀ host : Host,
      Occurs ("<span class=\"release-date\">" ++ formatDate host release140.date ++ "</span>")
        (writtenPage host sampleData) := by
    intro host
    have h := run_of_valid host sampleData stackScript agentScript rfl rfl (by decide)
    unfold writtenPage
    rw [h.1]
    exact occurs_trans (date_in_card host release140 sampleData.agent.repo)
      (occurs_trans
        (occurs_join_of_mem "\n"
          (List.mem_map_of_mem (fun r => generateReleaseCard host r sampleData.agent.repo) hmem))
        (occurs_releaseCards_page _ _ _ _ _ _))
  refine ⟨by decide, by decide, hin utcHost, hin newYorkHost, h1.2, h2.2, ?_⟩
  rw [h1.1, h2.1]
  intro h
  injection h with h
  have hcards := page_cards_injective _ _ _ _ _ _ _ h
  revert hcards
  decide

/-! ## The assembled page (lines 109-225) -/

/-- A piece that ends a string ends it still when both are continued alike. -/
theorem suffix_append_both {t s : String} (a : String) (h : t.data <:+ s.data) :
    (t ++ a).data <:+ (s ++ a).data := by
  obtain ⟨p, hp⟩ := h
  refine ⟨p, ?_⟩
  rw [String.data_append, String.data_append, ← List.append_assoc, hp]

/-- The last piece of a string ends it. -/
theorem suffix_append_last (p t : String) : t.data <:+ (p ++ t).data := by
  rw [String.data_append]
  exact List.suffix_append _ _

/-- What ends a string occurs in it. -/
theorem occurs_of_suffix {t s : String} (h : t.data <:+ s.data) : Occurs t s :=
  (occurs_spec t s).mpr h.isInfix

set_option maxRecDepth 20000 in
/-- Lines 175-185 of the template: the release cards in the `releases` element, then the
stack card and the agent card in the `scripts-grid` element. -/
theorem occurs_sections_page (b sf af rc sc ac : String) :
    Occurs
      ("                <div class=\"releases\">\n" ++
        rc ++ "\n" ++
        "                </div>\n" ++
        "            </div>\n" ++
        "\n" ++
        "            <!-- Scripts Tab Content -->\n" ++
        "            <div class=\"tab-content\" id=\"scripts-content\">\n" ++
        "                <div class=\"scripts-grid\">\n" ++
        sc ++ "\n" ++
        ac ++ "\n" ++
        "                </div>\n")
      (page b sf af rc sc ac) := by
  unfold page
  iterate 39 (with_reducible refine occurs_append_left _ ?_)
  refine occurs_of_suffix ?_
  iterate 13 (with_reducible refine suffix_append_both _ ?_)
  with_reducible exact suffix_append_last _ _

/-- A pattern that starts a text is no longer than the text. -/
theorem length_le_of_isPrefixOf :
    ∀ (p l : List Char), p.isPrefixOf l = true → p.length ≤ l.length
  | [], _, _ => by simp
  | _ :: _, [], h => by simp [List.isPrefixOf] at h
  | a :: p, b :: l, h => by
    simp only [List.isPrefixOf, Bool.and_eq_true] at h
    have := length_le_of_isPrefixOf p l h.2
    simp only [List.length_cons]
    omega

/-- Occurrences add up over `A ++ B` when none can straddle the seam. -/
theorem countStarts_append_of_noStraddle (p B : List Char) :
    ∀ (A : List Char), noStraddle p A = true →
      countStarts p (A ++ B) = countStarts p A + countStarts p B
  | [], _ => by simp [countStarts]
  | c :: A, h => by
    rw [noStraddle, Bool.and_eq_true, Bool.or_eq_true] at h
    have ih := countStarts_append_of_noStraddle p B A h.2
    have hhead : p.isPrefixOf (c :: A ++ B) = p.isPrefixOf (c :: A) := by
      rcases h.1 with hlen | hpre
      · exact isPrefixOf_append_of_length_le p (c :: A) B (of_decide_eq_true hlen)
      · by_cases hlen : p.length ≤ (c :: A).length
        · exact isPrefixOf_append_of_length_le p (c :: A) B hlen
        · have h1 : p.isPrefixOf (c :: A) = false := by
            cases hp : p.isPrefixOf (c :: A) with
            | false => rfl
            | true => exact absurd (length_le_of_isPrefixOf _ _ hp) hlen
          have h2 : p.isPrefixOf (c :: A ++ B) = false := by
            cases hp : p.isPrefixOf (c :: A ++ B) with
            | false => rfl
            | true =>
              rw [List.isPrefixOf_iff_prefix] at hp
              have hsub : (c :: A) <+: p :=
                List.prefix_of_prefix_length_le (List.prefix_append (c :: A) B) hp (by omega)
              rw [← List.isPrefixOf_iff_prefix] at hsub
              rw [hsub] at hpre
              cases hpre
          rw [h1, h2]
    show countStarts p (c :: (A ++ B)) = _
    rw [countStarts, countStarts, ih, ← List.cons_append, hhead]
    omega

/-- Each release card is a piece of the written page of a manifest with both scripts. -/
theorem card_in_written_page (host : Host) (data : Manifest) (s a : Script) (release : Release)
    (hs : data.scripts.stack = some s) (ha : data.scripts.agent = some a)
    (hmem : release ∈ data.agent.releases) :
    Occurs (generateReleaseCard host release data.agent.repo) (writtenPage host data) := by
  have hrun := run_of_valid host data s a hs ha (List.ne_nil_of_mem hmem)
  unfold writtenPage
  rw [hrun.1]
  exact occurs_trans
    (occurs_join_of_mem "\n"
      (List.mem_map_of_mem (fun r => generateReleaseCard host r data.agent.repo) hmem))
    (occurs_releaseCards_page _ _ _ _ _ _)

/-- C11: the release card does not depend on the repo identifier or on the domain. For
every release and every two repo identifiers the two cards are the same string; and
whatever domain and repo a manifest with that release carries, the page written for it
holds that same card. (The machine that formats the date is held fixed.) -/
theorem release_card_ignores_repo_and_domain (host : Host) (release : Release)
    (repo1 repo2 : String) :
    generateReleaseCard host release repo1 = generateReleaseCard host release repo2 ∧
    ∀ (data : Manifest) (s a : Script) (domain2 : Option String),
      data.scripts.stack = some s → data.scripts.agent = some a →
      release ∈ data.agent.releases →
      Occurs (generateReleaseCard host release repo1) (writtenPage host data) ∧
      Occurs (generateReleaseCard host release repo1)
        (writtenPage host
          { data with domain := domain2, agent := { data.agent with repo := repo2 } }) := by
  refine ⟨rfl, ?_⟩
  intro data s a domain2 hs ha hmem
  exact ⟨card_in_written_page host data s a release hs ha hmem,
    card_in_written_page host
      { data with domain := domain2, agent := { data.agent with repo := repo2 } }
      s a release hs ha hmem⟩

/-- Witness of C11: release 1.4.0 under two repos and two domains. -/
theorem release_card_ignores_repo_and_domain_witness :
    generateReleaseCard utcHost release140 "CloudNativeWorks/clustereye-agent" =
      generateReleaseCard utcHost release140 "someone/else" ∧
    Occurs (generateReleaseCard utcHost release140 "CloudNativeWorks/clustereye-agent")
      (writtenPage utcHost sampleData) ∧
    Occurs (generateReleaseCard utcHost release140 "CloudNativeWorks/clustereye-agent")
      (writtenPage utcHost
        { sampleData with
          domain := some "mirror.example.org",
          agent := { sampleData.agent with repo := "someone/else" } }) :=
  have h := release_card_ignores_repo_and_domain utcHost release140
    "CloudNativeWorks/clustereye-agent" "someone/else"
  ⟨h.1, h.2 sampleData stackScript agentScript (some "mirror.example.org") rfl rfl (by decide)⟩

/-- Two values interpolated one after the other, with the template text between them. -/
theorem occurs_around_two {L A R B : String} (P v M w : String)
    (hL : L.data <:+ A.data) (hR : R.data <+: B.data) :
    Occurs (L ++ v ++ M ++ w ++ R) (P ++ A ++ v ++ M ++ w ++ B) := by
  obtain ⟨a, ha⟩ := hL
  obtain ⟨b, hb⟩ := hR
  rw [occurs_spec]
  simp only [String.data_append]
  refine ⟨P.data ++ a, b, ?_⟩
  rw [← ha, ← hb]
  simp [List.append_assoc]

set_option maxRecDepth 20000 in
/-- The two commands of the Quick Install section (lines 137 and 153). -/
theorem quick_install_in_page (b sf af rc sc ac : String) :
    Occurs ("<code id=\"stack-cmd\">curl -sSL " ++ b ++ "/" ++ sf ++ " | bash</code>")
      (page b sf af rc sc ac) ∧
    Occurs ("<code id=\"agent-cmd\">curl -sSL " ++ b ++ "/" ++ af ++
        " | sudo bash -s -- -p postgres</code>")
      (page b sf af rc sc ac) := by
  constructor
  · unfold page
    repeat (first
      | ((with_reducible refine occurs_around_two _ _ _ _ ?_ ?_) <;> decide)
      | (with_reducible refine occurs_append_left _ ?_))
  · unfold page
    repeat (first
      | ((with_reducible refine occurs_around_two _ _ _ _ ?_ ?_) <;> decide)
      | (with_reducible refine occurs_append_left _ ?_))

/-- A usage command inside a `code` element, read as one string. -/
theorem code_element_eq (openTag cmdStart b f cmdEnd : String) :
    openTag ++ (cmdStart ++ b ++ "/" ++ f ++ cmdEnd) ++ "</code>" =
      (openTag ++ cmdStart) ++ b ++ "/" ++ f ++ (cmdEnd ++ "</code>") := by
  apply String.ext
  simp only [String.data_append, List.append_assoc]

/-- C16: the commands of the Quick Install section agree with the script cards. In the
written page the `stack-cmd` element holds the usage command that
`generateScriptCard(scripts.stack, 'stack')` renders in its `code` element, and the
`agent-cmd` element holds the one `generateScriptCard(scripts.agent, 'agent')` renders;
both cards are in the page. -/
theorem quick_install_agrees (host : Host) (data : Manifest) (s a : Script)
    (hs : data.scripts.stack = some s) (ha : data.scripts.agent = some a)
    (hrel : data.agent.releases ≠ []) :
    Occurs ("<code id=\"stack-cmd\">" ++ usageCmd (baseUrl data.domain) s "stack" ++ "</code>")
      (writtenPage host data) ∧
    Occurs ("<code id=\"agent-cmd\">" ++ usageCmd (baseUrl data.domain) a "agent" ++ "</code>")
      (writtenPage host data) ∧
    Occurs ("<code>" ++ usageCmd (baseUrl data.domain) s "stack" ++ "</code>")
      (generateScriptCard (baseUrl data.domain) s "stack") ∧
    Occurs ("<code>" ++ usageCmd (baseUrl data.domain) a "agent" ++ "</code>")
      (generateScriptCard (baseUrl data.domain) a "agent") ∧
    Occurs (generateScriptCard (baseUrl data.domain) s "stack") (writtenPage host data) ∧
    Occurs (generateScriptCard (baseUrl data.domain) a "agent") (writtenPage host data) := by
  have hrun := run_of_valid host data s a hs ha hrel
  have hq := quick_install_in_page (baseUrl data.domain) s.file a.file
    (join "\n" (data.agent.releases.map (fun r => generateReleaseCard host r data.agent.repo)))
    (generateScriptCard (baseUrl data.domain) s "stack")
    (generateScriptCard (baseUrl data.domain) a "agent")
  have hagent : ¬ ("agent" = "stack") := by decide
  have hcode : ∀ (script : Script) (type : String),
      Occurs ("<code>" ++ usageCmd (baseUrl data.domain) script type ++ "</code>")
        (generateScriptCard (baseUrl data.domain) script type) := by
    intro script type
    unfold generateScriptCard
    repeat (first
      | ((with_reducible refine occurs_around _ _ ?_ ?_) <;> decide)
      | (with_reducible refine occurs_append_left _ ?_))
  unfold writtenPage
  rw [hrun.1]
  refine ⟨?_, ?_, hcode s "stack", hcode a "agent", occurs_stackCard_page _ _ _ _ _ _,
    occurs_agentCard_page _ _ _ _ _ _⟩
  · have e : "<code id=\"stack-cmd\">" ++ usageCmd (baseUrl data.domain) s "stack" ++ "</code>" =
        "<code id=\"stack-cmd\">curl -sSL " ++ baseUrl data.domain ++ "/" ++ s.file ++
          " | bash</code>" := by
      unfold usageCmd
      rw [if_pos rfl]
      exact code_element_eq _ _ _ _ _
    rw [e]
    exact hq.1
  · have e : "<code id=\"agent-cmd\">" ++ usageCmd (baseUrl data.domain) a "agent" ++ "</code>" =
        "<code id=\"agent-cmd\">curl -sSL " ++ baseUrl data.domain ++ "/" ++ a.file ++
          " | sudo bash -s -- -p postgres</code>" := by
      unfold usageCmd
      rw [if_neg hagent]
      exact code_element_eq _ _ _ _ _
    rw [e]
    exact hq.2

/-- Witness of C16: the sample manifest, with the domain `dl.example.com`. -/
theorem quick_install_agrees_witness :
    Occurs "<code id=\"stack-cmd\">curl -sSL https://dl.example.com/install-stack.sh | bash</code>"
      (writtenPage utcHost sampleData) ∧
    Occurs "<code id=\"agent-cmd\">curl -sSL https://dl.example.com/install-agent.sh | sudo bash -s -- -p postgres</code>"
      (writtenPage utcHost sampleData) ∧
    Occurs "<code>curl -sSL https://dl.example.com/install-stack.sh | bash</code>"
      (generateScriptCard (baseUrl sampleData.domain) stackScript "stack") ∧
    Occurs "<code>curl -sSL https://dl.example.com/install-agent.sh | sudo bash -s -- -p postgres</code>"
      (generateScriptCard (baseUrl sampleData.domain) agentScript "agent") :=
  have h := quick_install_agrees utcHost sampleData stackScript agentScript rfl rfl (by decide)
  ⟨h.1, h.2.1, h.2.2.1, h.2.2.2.1⟩

/-- No decimal digit is a `<`. -/
theorem decimalDigits_tagFree : ∀ (fuel n : Nat), '<' ∉ decimalDigits fuel n
  | 0, _ => by simp [decimalDigits]
  | fuel + 1, n => by
    have hdigit : ∀ k : Fin 10, Char.ofNat (48 + k.val) ≠ '<' := by decide
    rw [decimalDigits]
    split
    · rename_i h
      have := hdigit ⟨n, h⟩
      simpa using this.symm
    · have := hdigit ⟨n % 10, Nat.mod_lt _ (by decide)⟩
      have ih := decimalDigits_tagFree fuel (n / 10)
      simp only [List.mem_append, List.mem_singleton, not_or]
      exact ⟨ih, this.symm⟩

/-- No month name holds a `<`. -/
theorem monthName_tagFree (m : Nat) : '<' ∉ (monthName m).data := by
  unfold monthName
  split <;> decide

/-- A formatted date opens no tag. -/
theorem formatDate_tagFree (host : Host) (dateStr : String) :
    TagFree (formatDate host dateStr) := by
  unfold TagFree formatDate toLocaleDateString
  cases newDate host dateStr with
  | none =>
    show '<' ∉ "Invalid Date".data
    decide
  | some t =>
    show '<' ∉ (match civilFromDays ((t + host.localOffsetMinutes t * 60000) / msPerDay) with
      | (y, m, d) => monthName m ++ " " ++ decimal d ++ ", " ++ decimal (yearOfEra y)).data
    simp only [String.data_append, List.mem_append, not_or, decimal]
    exact ⟨⟨⟨⟨monthName_tagFree _, by decide⟩, decimalDigits_tagFree _ _⟩, by decide⟩,
      decimalDigits_tagFree _ _⟩

/-- Occurrences in a `join` followed by any text, when each item followed by any text
holds `n` and the separator holds none. -/
theorem countStarts_join_append (p : List Char) (sep : String) (n : Nat)
    (hsep : ∀ B, countStarts p (sep.data ++ B) = countStarts p B) :
    ∀ (xs : List String),
      (∀ x ∈ xs, ∀ B, countStarts p (x.data ++ B) = n + countStarts p B) →
      ∀ B, countStarts p ((join sep xs).data ++ B) = n * xs.length + countStarts p B
  | [], _, B => by simp [join]
  | [x], h, B => by
    rw [join, h x (List.mem_singleton.mpr rfl) B]
    simp
  | x :: y :: rest, h, B => by
    have ih := countStarts_join_append p sep n hsep (y :: rest)
      (fun z hz => h z (List.mem_cons_of_mem _ hz)) B
    rw [join]
    simp only [String.data_append, List.append_assoc]
    rw [h x (List.mem_cons_self _ _), hsep, ih]
    simp only [List.length_cons]
    ring

/-- An asset row opens no release card. -/
theorem row_opens_no_card (release : Release) (asset : Asset) (hv : TagFree release.version)
    (hn : TagFree asset.name) (ha : TagFree asset.arch) (B : List Char) :
    countStarts "<div class=\"release-card\">".data ((assetRow release asset).data ++ B) =
      0 + countStarts "<div class=\"release-card\">".data B := by
  unfold TagFree at hv hn ha
  unfold assetRow downloadUrl sha256Url
  cases asset.hasSha256
  · simp only [String.data_append, List.append_assoc, Bool.false_eq_true, if_false]
    simp (disch := first | assumption | decide) only
      [countStarts_append_clean, countStarts_append_of_noStraddle]
    simp [countStarts, List.isPrefixOf]
  · simp only [String.data_append, List.append_assoc, if_true]
    simp (disch := first | assumption | decide) only
      [countStarts_append_clean, countStarts_append_of_noStraddle]
    simp [countStarts, List.isPrefixOf]

/-- The badge line of a card opens no release card. -/
theorem badges_open_no_card (release : Release)
    (hfree : ∀ label ∈ release.badges.getD [], TagFree label) (B : List Char) :
    countStarts "<div class=\"release-card\">".data
      ((join "\n                                " (badges release)).data ++ B) =
      countStarts "<div class=\"release-card\">".data B := by
  have h := countStarts_join_append "<div class=\"release-card\">".data
    "\n                                " 0
    (fun B => countStarts_append_clean _ B (by decide)) (badges release) ?_ B
  · rw [h]
    simp
  · intro x hx B2
    rw [badges_eq] at hx
    rcases List.mem_append.mp hx with h1 | h2
    · cases hl : release.latest
      · simp [hl] at h1
      · simp only [hl, if_true, List.mem_singleton] at h1
        subst h1
        rw [countStarts_append_of_noStraddle _ _ _ (by decide)]
        simp [countStarts, List.isPrefixOf]
    · obtain ⟨label, hlabel, rfl⟩ := List.mem_map.mp h2
      have hl : '<' ∉ label.data := hfree label hlabel
      simp only [String.data_append, List.append_assoc]
      simp (disch := first | assumption | decide) only
        [countStarts_append_clean, countStarts_append_of_noStraddle]
      simp [countStarts, List.isPrefixOf]

/-- The asset rows of a card open no release card. -/
theorem assets_open_no_card (release : Release) (hv : TagFree release.version)
    (hfree : ∀ a ∈ release.assets, TagFree a.name ∧ TagFree a.arch) (B : List Char) :
    countStarts "<div class=\"release-card\">".data ((assetsHtml release).data ++ B) =
      countStarts "<div class=\"release-card\">".data B := by
  unfold assetsHtml
  have h := countStarts_join_append "<div class=\"release-card\">".data "" 0
    (fun B => rfl) (release.assets.map (assetRow release)) ?_ B
  · rw [h]
    simp
  · intro x hx B2
    obtain ⟨a, ha, rfl⟩ := List.mem_map.mp hx
    exact row_opens_no_card release a hv (hfree a ha).1 (hfree a ha).2 B2

/-- A card opens one release card, its own, whatever text follows it. -/
theorem card_opens_one_card (host : Host) (release : Release) (repo : String)
    (hfree : ReleaseTagFree release) (B : List Char) :
    countStarts "<div class=\"release-card\">".data
      ((generateReleaseCard host release repo).data ++ B) =
      1 + countStarts "<div class=\"release-card\">".data B := by
  obtain ⟨hv, hlabels, hassets⟩ := hfree
  have hdate : '<' ∉ (formatDate host release.date).data := formatDate_tagFree host release.date
  have hb := badges_open_no_card release hlabels
  have ha := assets_open_no_card release hv hassets
  unfold TagFree at hv
  unfold generateReleaseCard
  simp only [String.data_append, List.append_assoc]
  simp (disch := first | assumption | decide) only
    [countStarts_append_clean, countStarts_append_of_noStraddle, hb, ha]
  simp [countStarts, List.isPrefixOf]

/-- The joined cards open one release card per release. -/
theorem cards_open_one_each (host : Host) (repo : String) (releases : List Release)
    (hfree : ∀ r ∈ releases, ReleaseTagFree r) :
    countIn "<div class=\"release-card\">"
      (join "\n" (releases.map (fun r => generateReleaseCard host r repo))) = releases.length := by
  have h := countStarts_join_append "<div class=\"release-card\">".data "\n" 1
    (fun B => countStarts_append_clean _ B (by decide))
    (releases.map (fun r => generateReleaseCard host r repo)) ?_ []
  · unfold countIn
    rw [List.append_nil] at h
    rw [h]
    simp [countStarts]
  · intro x hx B
    obtain ⟨r, hr, rfl⟩ := List.mem_map.mp hx
    exact card_opens_one_card host r repo (hfree r hr) B

/-- A piece without occurrence and without straddling adds nothing to the count. -/
theorem countStarts_append_none (p B : List Char) (A : List Char)
    (h : (noStraddle p A && countStarts p A == 0) = true) :
    countStarts p (A ++ B) = countStarts p B := by
  rw [Bool.and_eq_true, beq_iff_eq] at h
  rw [countStarts_append_of_noStraddle p B A h.1, h.2, Nat.zero_add]

set_option maxRecDepth 100000 in
set_option maxHeartbeats 2000000 in
/-- The page skeleton opens no release card: those of a page are those of its cards. -/
theorem page_release_cards (b sf af rc sc ac : String) (n : Nat)
    (hb : TagFree b) (hsf : TagFree sf) (haf : TagFree af)
    (hrc : ∀ B, countStarts "<div class=\"release-card\">".data (rc.data ++ B) =
      n + countStarts "<div class=\"release-card\">".data B)
    (hsc : ∀ B, countStarts "<div class=\"release-card\">".data (sc.data ++ B) =
      countStarts "<div class=\"release-card\">".data B)
    (hac : ∀ B, countStarts "<div class=\"release-card\">".data (ac.data ++ B) =
      countStarts "<div class=\"release-card\">".data B) :
    countIn "<div class=\"release-card\">" (page b sf af rc sc ac) = n := by
  unfold TagFree at hb hsf haf
  unfold countIn page
  simp only [String.data_append, List.append_assoc] at hrc hsc hac ⊢
  simp (disch := first | assumption | decide) only
    [countStarts_append_clean, countStarts_append_none, hrc, hsc, hac]
  simp [countStarts, List.isPrefixOf]

/-- The options block of a script card opens no release card. -/
theorem options_open_no_card (script : Script)
    (hfeat : ∀ f ∈ script.features.getD [], TagFree f)
    (hopt : ∀ o ∈ script.options.getD [], TagFree o.flag ∧ TagFree o.desc) (B : List Char) :
    countStarts "<div class=\"release-card\">".data ((optionsHtml script).data ++ B) =
      countStarts "<div class=\"release-card\">".data B := by
  unfold optionsHtml
  cases hf : script.features with
  | some features =>
    rw [hf] at hfeat
    have hjoin := countStarts_join_append "<div class=\"release-card\">".data
      "\n                                " 0
      (fun B => countStarts_append_clean _ B (by decide))
      (features.map (fun f => "<li>" ++ f ++ "</li>")) (by
        intro x hx B2
        obtain ⟨f, hmem, rfl⟩ := List.mem_map.mp hx
        have hfree : '<' ∉ f.data := hfeat f hmem
        simp only [String.data_append, List.append_assoc]
        simp (disch := first | assumption | decide) only
          [countStarts_append_clean, countStarts_append_none]
        simp)
    simp only [Nat.zero_mul, Nat.zero_add] at hjoin
    simp only [String.data_append, List.append_assoc]
    simp (disch := first | assumption | decide) only
      [countStarts_append_clean, countStarts_append_none, hjoin]
  | none =>
    cases ho : script.options with
    | some options =>
      rw [ho] at hopt
      have hjoin := countStarts_join_append "<div class=\"release-card\">".data
        "\n                                " 0
        (fun B => countStarts_append_clean _ B (by decide))
        (options.map (fun o => "<li><code>" ++ o.flag ++ "</code> - " ++ o.desc ++ "</li>")) (by
          intro x hx B2
          obtain ⟨o, hmem, rfl⟩ := List.mem_map.mp hx
          have hflag : '<' ∉ o.flag.data := (hopt o hmem).1
          have hdesc : '<' ∉ o.desc.data := (hopt o hmem).2
          simp only [String.data_append, List.append_assoc]
          simp (disch := first | assumption | decide) only
            [countStarts_append_clean, countStarts_append_none]
          simp)
      simp only [Nat.zero_mul, Nat.zero_add] at hjoin
      simp only [String.data_append, List.append_assoc]
      simp (disch := first | assumption | decide) only
        [countStarts_append_clean, countStarts_append_none, hjoin]
    | none => rfl

/-- A script card opens no release card. -/
theorem script_card_opens_no_card (b : String) (script : Script) (type : String)
    (hb : TagFree b) (hfree : ScriptTagFree script) (B : List Char) :
    countStarts "<div class=\"release-card\">".data
      ((generateScriptCard b script type).data ++ B) =
      countStarts "<div class=\"release-card\">".data B := by
  obtain ⟨hname, hdesc, hfile, hfeat, hopt⟩ := hfree
  have hoptions := options_open_no_card script hfeat hopt
  unfold TagFree at hb hname hdesc hfile
  unfold generateScriptCard usageCmd icon
  by_cases ht : type = "stack"
  · simp only [ht, if_true, String.data_append, List.append_assoc]
    simp (disch := first | assumption | decide) only
      [countStarts_append_clean, countStarts_append_none, hoptions]
  · simp only [ht, if_false, String.data_append, List.append_assoc]
    simp (disch := first | assumption | decide) only
      [countStarts_append_clean, countStarts_append_none, hoptions]

/-- The base URL opens no tag when the domain opens none. -/
theorem baseUrl_tagFree (domain : Option String) (h : TagFree (interpolate domain)) :
    TagFree (baseUrl domain) := by
  unfold TagFree baseUrl at *
  rw [String.data_append, List.mem_append, not_or]
  exact ⟨by decide, h⟩

/-- C12: for a manifest with both scripts and a release, the written page holds, in its
`releases` element, the cards of `agent.releases` joined by a newline: one card per
release, the `i`-th card being the card of the `i`-th release; and after them, in the
`scripts-grid` element, the stack script card followed by the agent script card. Read in
the text, for releases whose strings open no tag of their own: the joined cards open
exactly one `release-card` element per release, and so does the whole written page when
the domain and the strings of the two script descriptors open no tag either. -/
theorem page_sections (host : Host) (data : Manifest) (s a : Script)
    (hs : data.scripts.stack = some s) (ha : data.scripts.agent = some a)
    (hrel : data.agent.releases ≠ []) :
    (data.agent.releases.map (fun r => generateReleaseCard host r data.agent.repo)).length =
      data.agent.releases.length ∧
    (∀ i : Nat,
      (data.agent.releases.map (fun r => generateReleaseCard host r data.agent.repo))[i]? =
        (data.agent.releases[i]?).map (fun r => generateReleaseCard host r data.agent.repo)) ∧
    Occurs
      ("                <div class=\"releases\">\n" ++
        join "\n" (data.agent.releases.map (fun r => generateReleaseCard host r data.agent.repo)) ++
        "\n" ++
        "                </div>\n" ++
        "            </div>\n" ++
        "\n" ++
        "            <!-- Scripts Tab Content -->\n" ++
        "            <div class=\"tab-content\" id=\"scripts-content\">\n" ++
        "                <div class=\"scripts-grid\">\n" ++
        generateScriptCard (baseUrl data.domain) s "stack" ++ "\n" ++
        generateScriptCard (baseUrl data.domain) a "agent" ++ "\n" ++
        "                </div>\n")
      (writtenPage host data) ∧
    ((∀ r ∈ data.agent.releases, ReleaseTagFree r) →
      countIn "<div class=\"release-card\">"
        (join "\n" (data.agent.releases.map (fun r => generateReleaseCard host r data.agent.repo))) =
        data.agent.releases.length ∧
      (TagFree (interpolate data.domain) → ScriptTagFree s → ScriptTagFree a →
        countIn "<div class=\"release-card\">" (writtenPage host data) =
          data.agent.releases.length)) := by
  have hrun := run_of_valid host data s a hs ha hrel
  refine ⟨List.length_map _ _, fun i => List.getElem?_map _ _ _, ?_, ?_⟩
  · unfold writtenPage
    rw [hrun.1]
    exact occurs_sections_page _ _ _ _ _ _
  · intro hfree
    refine ⟨cards_open_one_each host data.agent.repo data.agent.releases hfree, ?_⟩
    intro hdomain hstack hagent
    have hb := baseUrl_tagFree data.domain hdomain
    have hcards : ∀ B, countStarts "<div class=\"release-card\">".data
        ((join "\n" (data.agent.releases.map
          (fun r => generateReleaseCard host r data.agent.repo))).data ++ B) =
        data.agent.releases.length + countStarts "<div class=\"release-card\">".data B := by
      intro B
      have h := countStarts_join_append "<div class=\"release-card\">".data "\n" 1
        (fun B => countStarts_append_clean _ B (by decide))
        (data.agent.releases.map (fun r => generateReleaseCard host r data.agent.repo)) (by
          intro x hx B2
          obtain ⟨r, hr, rfl⟩ := List.mem_map.mp hx
          exact card_opens_one_card host r data.agent.repo (hfree r hr) B2) B
      rw [h, List.length_map, Nat.one_mul]
    unfold writtenPage
    rw [hrun.1]
    exact page_release_cards _ _ _ _ _ _ _ hb hstack.2.2.1 hagent.2.2.1 hcards
      (script_card_opens_no_card _ s "stack" hb hstack)
      (script_card_opens_no_card _ a "agent" hb hagent)

set_option maxRecDepth 100000 in
/-- Witness of C12: the two releases of the sample manifest, 1.3.0 then 1.4.0. -/
theorem page_sections_witness :
    Occurs
      ("                <div class=\"releases\">\n" ++
        (generateReleaseCard utcHost release130 sampleData.agent.repo ++ "\n" ++
          generateReleaseCard utcHost release140 sampleData.agent.repo) ++
        "\n" ++
        "                </div>\n" ++
        "            </div>\n" ++
        "\n" ++
        "            <!-- Scripts Tab Content -->\n" ++
        "            <div class=\"tab-content\" id=\"scripts-content\">\n" ++
        "                <div class=\"scripts-grid\">\n" ++
        generateScriptCard (baseUrl sampleData.domain) stackScript "stack" ++ "\n" ++
        generateScriptCard (baseUrl sampleData.domain) agentScript "agent" ++ "\n" ++
        "                </div>\n")
      (writtenPage utcHost sampleData) ∧
    countIn "<div class=\"release-card\">"
      (generateReleaseCard utcHost release130 sampleData.agent.repo ++ "\n" ++
        generateReleaseCard utcHost release140 sampleData.agent.repo) = 2 ∧
    countIn "<div class=\"release-card\">" (writtenPage utcHost sampleData) = 2 :=
  have h := page_sections utcHost sampleData stackScript agentScript rfl rfl (by decide)
  ⟨h.2.2.1, (h.2.2.2 (by decide)).1,
    (h.2.2.2 (by decide)).2 (by decide) (by decide) (by decide)⟩

end GenerateIndex
